import Mathlib

/-!
Verification development for the CRA governance runtime.

The definitions below are a shallow embedding of the Python sources under
`src/cra/` (the policy-aware variant, which the specification declares
authoritative): `cra/core/policy.py`, `cra/core/session.py`,
`cra/core/action.py`, `cra/runtime/services/tracer.py`,
`cra/runtime/services/session_manager.py`,
`cra/runtime/services/resolver.py` and
`cra/runtime/services/executor.py`.

Modelling conventions:
* UUIDs are modelled as `Nat`; fresh-id generation (`uuid4`) is a counter
  threaded through the state.
* Wall-clock reads (`datetime.utcnow()`) inside one call are modelled by a
  single `now : Nat` parameter (seconds); distinct calls may pass distinct
  instants.
* Python exceptions are modelled by `Except`; a function that cannot raise
  is total.
* Python `float` confidence arithmetic is modelled over `ℚ`; the claims
  settled on it concern discrepancies far larger than double rounding error.
* JSON data (`dict`/`list`/scalars) is the inductive `Json` below; `dict`
  iteration order is insertion order, as in Python.
-/

namespace CRA

/-! ### Character and string helpers -/

/-- Code-point lexicographic `<` on char lists: the order Python uses to
compare `str` values, e.g. in `sorted` and `json.dumps(..., sort_keys=True)`. -/
def charListLt : List Char → List Char → Bool
  | [], [] => false
  | [], _ :: _ => true
  | _ :: _, [] => false
  | a :: as, b :: bs =>
    if a.toNat < b.toNat then true
    else if b.toNat < a.toNat then false
    else charListLt as bs

/-- `<` on strings, by code points (Python string comparison). -/
def strLt (a b : String) : Bool := charListLt a.data b.data

/-- ASCII lowercase of one character (used to model `re.IGNORECASE` and
`str.lower()` on the ASCII identifiers these rules deal with). -/
def lowerChar (c : Char) : Char :=
  if 'A' ≤ c ∧ c ≤ 'Z' then Char.ofNat (c.toNat + 32) else c

/-- ASCII alphanumeric test, the `[a-zA-Z0-9]` class of the source regexes. -/
def isAsciiAlnum (c : Char) : Bool :=
  ('a' ≤ c && c ≤ 'z') || ('A' ≤ c && c ≤ 'Z') || ('0' ≤ c && c ≤ '9')

/-- `str.startswith`, structurally on the underlying characters. -/
def strStartsWith (pfx s : String) : Bool := pfx.data.isPrefixOf s.data

/-- Case-insensitive substring test (`pattern.lower() in key.lower()` in
`RedactionRule.evaluate`). -/
def substrCI (needle haystack : String) : Bool :=
  let n := needle.data.map lowerChar
  let rec go : List Char → Bool
    | [] => n.isPrefixOf []
    | c :: cs => n.isPrefixOf ((c :: cs).map lowerChar) || go cs
  go haystack.data

/-- `", ".join`-style joining used when rendering lists into messages. -/
def joinSep (sep : String) : List String → String
  | [] => ""
  | [s] => s
  | s :: rest => s ++ sep ++ joinSep sep rest

/-! ### JSON values (`dict`/`list`/scalars handled by `json.dumps`)

Objects keep insertion order, as Python dicts do.  Numbers are modelled as
integers: every payload the claims touch is integral, and Python ints
serialize as plain decimal. -/

inductive Json where
  | null
  | bool (b : Bool)
  | num (n : Int)
  | str (s : String)
  | arr (elems : List Json)
  | obj (members : List (String × Json))

/-- Sorted insertion by key (stable: an inserted entry goes before entries
with an equal key only when strictly smaller, so first occurrences stay
first, matching Python's stable `sorted`). -/
def insertKv {β : Type} (x : String × β) : List (String × β) → List (String × β)
  | [] => [x]
  | y :: ys => if strLt y.1 x.1 then y :: insertKv x ys else x :: y :: ys

/-- Insertion sort of object members by key: the key ordering applied by
`json.dumps(data, sort_keys=True)` to every object. -/
def sortKvs {β : Type} : List (String × β) → List (String × β)
  | [] => []
  | x :: xs => insertKv x (sortKvs xs)

mutual
/-- Recursively sort every object's members by key.  `dumps` below factors
`json.dumps(…, sort_keys=True)` as plain rendering after this pass. -/
def sortJson : Json → Json
  | .null => .null
  | .bool b => .bool b
  | .num n => .num n
  | .str s => .str s
  | .arr es => .arr (sortJsonList es)
  | .obj ms => .obj (sortKvs (sortJsonKvs ms))

def sortJsonList : List Json → List Json
  | [] => []
  | e :: es => sortJson e :: sortJsonList es

def sortJsonKvs : List (String × Json) → List (String × Json)
  | [] => []
  | (k, v) :: ms => (k, sortJson v) :: sortJsonKvs ms
end

/-- Two hex digits (for `\u00XX` escapes). -/
def hexDigit (n : Nat) : Char :=
  if n < 10 then Char.ofNat ('0'.toNat + n) else Char.ofNat ('a'.toNat + (n - 10))

/-- `\uXXXX` escape of a BMP code unit, as Python's `ensure_ascii` emits. -/
def uEscape (n : Nat) : String :=
  String.mk ['\\', 'u', hexDigit (n / 4096 % 16), hexDigit (n / 256 % 16),
             hexDigit (n / 16 % 16), hexDigit (n % 16)]

/-- One character of a JSON string, escaped as `json.dumps` (default
`ensure_ascii=True`) escapes it. -/
def encodeChar (c : Char) : String :=
  if c = '"' then "\\\""
  else if c = '\\' then "\\\\"
  else if c = '\n' then "\\n"
  else if c = '\r' then "\\r"
  else if c = '\t' then "\\t"
  else if c.toNat = 8 then "\\b"
  else if c.toNat = 12 then "\\f"
  else if c.toNat < 32 then uEscape c.toNat
  else if c.toNat < 127 then String.mk [c]
  else if c.toNat < 65536 then uEscape c.toNat
  else
    uEscape (55296 + (c.toNat - 65536) / 1024) ++ uEscape (56320 + (c.toNat - 65536) % 1024)

/-- A JSON string literal with quotes, as `json.dumps` renders it. -/
def encodeString (s : String) : String :=
  "\"" ++ String.join (s.data.map encodeChar) ++ "\""

mutual
/-- Render a JSON value with `json.dumps`'s default separators
(`", "` and `": "`), in the member order given.  `dumps` composes this with
`sortJson`, which together model `json.dumps(data, sort_keys=True)`. -/
def render : Json → String
  | .null => "null"
  | .bool true => "true"
  | .bool false => "false"
  | .num n => toString n
  | .str s => encodeString s
  | .arr es => "[" ++ renderList es ++ "]"
  | .obj ms => "\x7b" ++ renderKvs ms ++ "\x7d"

def renderList : List Json → String
  | [] => ""
  | [e] => render e
  | e :: es => render e ++ ", " ++ renderList es

def renderKvs : List (String × Json) → String
  | [] => ""
  | [(k, v)] => encodeString k ++ ": " ++ render v
  | (k, v) :: ms => encodeString k ++ ": " ++ render v ++ ", " ++ renderKvs ms
end

/-- `json.dumps(data, sort_keys=True)` (executor `_hash_json`, line 476):
keys of every object are emitted in sorted order. -/
def dumps (j : Json) : String := render (sortJson j)

/-! ### SHA-256 (`hashlib.sha256`) over the UTF-8 encoding of the dump -/

/-- UTF-8 bytes of one character. -/
def utf8Char (c : Char) : List Nat :=
  let n := c.toNat
  if n < 128 then [n]
  else if n < 2048 then [192 + n / 64, 128 + n % 64]
  else if n < 65536 then [224 + n / 4096, 128 + n / 64 % 64, 128 + n % 64]
  else [240 + n / 262144, 128 + n / 4096 % 64, 128 + n / 64 % 64, 128 + n % 64]

/-- UTF-8 encoding of a string (`str.encode()`), as a byte list. -/
def utf8Bytes (s : String) : List Nat := s.data.flatMap utf8Char

/-- 32-bit truncation. -/
def w32 (n : Nat) : Nat := n % 4294967296

/-- Right rotation of a 32-bit word. -/
def rotr (n k : Nat) : Nat := w32 (n / 2 ^ k + n % 2 ^ k * 2 ^ (32 - k))

/-- Bitwise NOT of a 32-bit word. -/
def not32 (n : Nat) : Nat := Nat.xor 4294967295 n

/-- SHA-256 round constants. -/
def shaK : List Nat :=
  [1116352408, 1899447441, 3049323471, 3921009573,
   961987163, 1508970993, 2453635748, 2870763221,
   3624381080, 310598401, 607225278, 1426881987,
   1925078388, 2162078206, 2614888103, 3248222580,
   3835390401, 4022224774, 264347078, 604807628,
   770255983, 1249150122, 1555081692, 1996064986,
   2554220882, 2821834349, 2952996808, 3210313671,
   3336571891, 3584528711, 113926993, 338241895,
   666307205, 773529912, 1294757372, 1396182291,
   1695183700, 1986661051, 2177026350, 2456956037,
   2730485921, 2820302411, 3259730800, 3345764771,
   3516065817, 3600352804, 4094571909, 275423344,
   430227734, 506948616, 659060556, 883997877,
   958139571, 1322822218, 1537002063, 1747873779,
   1955562222, 2024104815, 2227730452, 2361852424,
   2428436474, 2756734187, 3204031479, 3329325298]

/-- Pad a message to a whole number of 64-byte blocks (append `0x80`, zeros,
and the 64-bit big-endian bit length). -/
def shaPad (msg : List Nat) : List Nat :=
  let len := msg.length
  let zeros := (64 - (len + 9) % 64) % 64
  let bitLen := len * 8
  msg ++ [128] ++ List.replicate zeros 0 ++
    [bitLen / 2 ^ 56 % 256, bitLen / 2 ^ 48 % 256, bitLen / 2 ^ 40 % 256,
     bitLen / 2 ^ 32 % 256, bitLen / 2 ^ 24 % 256, bitLen / 2 ^ 16 % 256,
     bitLen / 2 ^ 8 % 256, bitLen % 256]

/-- Split into 64-byte blocks (with fuel bounded by the list length). -/
def chunk64 : Nat → List Nat → List (List Nat)
  | 0, _ => []
  | _, [] => []
  | fuel + 1, bytes => bytes.take 64 :: chunk64 fuel (bytes.drop 64)

/-- Big-endian 32-bit words of one block. -/
def blockWords : List Nat → List Nat
  | a :: b :: c :: d :: rest => (((a * 256 + b) * 256 + c) * 256 + d) :: blockWords rest
  | _ => []

/-- Extend 16 message words to the 64-entry schedule. -/
def shaExtend : Nat → List Nat → List Nat
  | 0, ws => ws
  | n + 1, ws =>
    let i := ws.length
    let get := fun k => ws.getD k 0
    let s0 :=
      Nat.xor (rotr (get (i - 15)) 7) (Nat.xor (rotr (get (i - 15)) 18) (get (i - 15) / 2 ^ 3))
    let s1 :=
      Nat.xor (rotr (get (i - 2)) 17) (Nat.xor (rotr (get (i - 2)) 19) (get (i - 2) / 2 ^ 10))
    shaExtend n (ws ++ [w32 (get (i - 16) + s0 + get (i - 7) + s1)])

/-- One compression round. -/
def shaRound (st : List Nat) (kw : Nat × Nat) : List Nat :=
  match st with
  | [a, b, c, d, e, f, g, h] =>
    let s1 := Nat.xor (rotr e 6) (Nat.xor (rotr e 11) (rotr e 25))
    let ch := Nat.xor (Nat.land e f) (Nat.land (not32 e) g)
    let t1 := w32 (h + s1 + ch + kw.1 + kw.2)
    let s0 := Nat.xor (rotr a 2) (Nat.xor (rotr a 13) (rotr a 22))
    let mj := Nat.xor (Nat.land a b) (Nat.xor (Nat.land a c) (Nat.land b c))
    let t2 := w32 (s0 + mj)
    [w32 (t1 + t2), a, b, c, w32 (d + t1), e, f, g]
  | other => other

/-- Compress one 64-byte block into the running hash state. -/
def shaCompress (st : List Nat) (block : List Nat) : List Nat :=
  let ws := shaExtend 48 (blockWords block)
  let st' := (shaK.zip ws).foldl (fun s kw => shaRound s kw) st
  (st.zip st').map fun p => w32 (p.1 + p.2)

/-- SHA-256 digest (eight 32-bit words) of a byte list. -/
def sha256Words (msg : List Nat) : List Nat :=
  let padded := shaPad msg
  (chunk64 (padded.length + 1) padded).foldl shaCompress
    [1779033703, 3144134277, 1013904242, 2773480762,
     1359893119, 2600822924, 528734635, 1541459225]

/-- Lowercase hex rendering of a 32-bit word. -/
def wordHex (n : Nat) : String :=
  String.mk ((List.range 8).map fun i => hexDigit (n / 2 ^ ((7 - i) * 4) % 16))

/-- `hashlib.sha256(bytes).hexdigest()`. -/
def sha256Hex (msg : List Nat) : String :=
  String.join ((sha256Words msg).map wordHex)

/-- `ActionExecutor._hash_json` (executor.py lines 467–477):
`hashlib.sha256(json.dumps(data, sort_keys=True, default=str).encode()).hexdigest()`. -/
def hashJson (data : Json) : String := sha256Hex (utf8Bytes (dumps data))

/-! ### Properties of the canonical key ordering -/

/-- A member list is sorted for `json.dumps(sort_keys=True)` when no later
key is strictly below an earlier one. -/
def KvSorted {β : Type} (l : List (String × β)) : Prop :=
  l.Pairwise fun a b => strLt b.1 a.1 = false

/-! ### Policy engine (`cra/core/policy.py`)

`DenyPatternRule` compiles each glob to the anchored regex
`^escaped$` with `*` → `.*` and `?` → `.`, matched with `re.IGNORECASE`.
`globMatch` below implements exactly the language of that regex —
wildcards plus case-insensitive literals over the whole candidate. -/

/-- Effect of a policy decision (`PolicyEffect`). -/
inductive PolicyEffect where
  | allow
  | deny
  | allowWithConstraints
  | requireApproval
deriving DecidableEq, Repr

/-- `PolicyEffect.value` strings. -/
def PolicyEffect.value : PolicyEffect → String
  | .allow => "allow"
  | .deny => "deny"
  | .allowWithConstraints => "allow_with_constraints"
  | .requireApproval => "require_approval"

/-- A policy violation (`PolicyViolation`).  `details` values are strings in
every rule the claims touch. -/
structure PolicyViolation where
  ruleId : String
  reason : String
  severity : String := "error"
  details : List (String × String) := []
deriving DecidableEq, Repr

/-- Result of policy evaluation (`PolicyDecision`). -/
structure PolicyDecision where
  effect : PolicyEffect
  ruleId : Option String := none
  reason : String := ""
  violations : List PolicyViolation := []
  constraints : List (String × String) := []
  redactions : List String := []
  requiresApproval : Bool := false
  approvalReason : Option String := none
deriving DecidableEq, Repr

/-- Context for policy evaluation (`PolicyContext`; the `timestamp` field is
only read by the rate-limit rule, which no claim touches, and is omitted). -/
structure PolicyContext where
  sessionId : Nat
  principalType : String
  principalId : String
  scopes : List String
  riskTier : String
  goal : String
  actionId : Option String := none
  resource : Option String := none
  metadata : List (String × String) := []
deriving DecidableEq, Repr

/-- All suffixes of a character list, longest first. -/
def sfxs : List Char → List (List Char)
  | [] => [[]]
  | c :: cs => (c :: cs) :: sfxs cs

/-- Matcher for the anchored case-insensitive regex `_glob_to_regex`
produces: `*` matches any sequence (`.*`), `?` any one character (`.`),
every other pattern character matches itself up to ASCII case. -/
def globMatchAux : List Char → List Char → Bool
  | [], s => s.isEmpty
  | '*' :: rest, s => (sfxs s).any fun t => globMatchAux rest t
  | '?' :: rest, s =>
    match s with
    | [] => false
    | _ :: cs => globMatchAux rest cs
  | c :: rest, s =>
    match s with
    | [] => false
    | d :: cs => (lowerChar c == lowerChar d) && globMatchAux rest cs

/-- Whether a compiled deny glob matches a whole candidate string. -/
def globMatch (pattern candidate : String) : Bool :=
  globMatchAux pattern.data candidate.data

/-- Drop the second of two adjacent dots, repeatedly (`re.sub(r"\.+", ".")`). -/
def dedupDotsAux (prev : Char) : List Char → List Char
  | [] => []
  | c :: cs => if prev = '.' ∧ c = '.' then dedupDotsAux prev cs else c :: dedupDotsAux c cs

/-- Collapse runs of dots to a single dot. -/
def dedupDots : List Char → List Char
  | [] => []
  | c :: cs => c :: dedupDotsAux c cs

/-- Strip leading and trailing dots (`str.strip(".")`). -/
def trimDots (l : List Char) : List Char :=
  ((l.dropWhile (· = '.')).reverse.dropWhile (· = '.')).reverse

/-- `DenyPatternRule._normalize_target`: lowercase, collapse every
non-alphanumeric run to a single `.`, deduplicate dots, trim dots. -/
def normalizeTarget (s : String) : String :=
  String.mk (trimDots (dedupDots (s.data.map fun c =>
    if isAsciiAlnum c then lowerChar c else '.')))

/-- The `re.search(r"[^a-zA-Z0-9_.-]", target)` guard in
`_candidate_targets`: the target holds some character outside
letters, digits, underscore, dot and hyphen. -/
def hasNonIdentChar (s : String) : Bool :=
  s.data.any fun c => !(isAsciiAlnum c || c = '_' || c = '.' || c = '-')

/-- `DenyPatternRule._candidate_targets`: the raw target, plus its
normalized form only when the target holds a human-friendly separator and
the normalization is non-empty and differs from the raw target. -/
def candidateTargets (target : String) : List String :=
  if hasNonIdentChar target then
    let normalized := normalizeTarget target
    if normalized ≠ "" ∧ normalized ≠ target then [target, normalized] else [target]
  else [target]

/-- The deny decision `DenyPatternRule.evaluate` builds from the first
matching (target, candidate, pattern) triple (policy.py lines 175–193):
the violation's details carry the pattern and the raw target, plus the
normalized candidate when it differs from the target. -/
def DenyPatternRule.mkDecision (ruleId : String) (tcp : String × String × String) :
    PolicyDecision :=
  let details := [("pattern", tcp.2.2), ("matched", tcp.1)] ++
    (if tcp.2.1 ≠ tcp.1 then [("normalized_match", tcp.2.1)] else [])
  { effect := .deny
    ruleId := some ruleId
    reason := "Denied by pattern: " ++ tcp.2.2
    violations := [{ ruleId := ruleId, reason := "Matched deny pattern", details := details }] }

/-- `DenyPatternRule.evaluate` (policy.py lines 166–194): try action id,
resource and goal in order, each with its candidate forms, against each
pattern in order; the first match produces a deny decision. -/
def DenyPatternRule.evaluate (ruleId : String) (patterns : List String)
    (ctx : PolicyContext) : Option PolicyDecision :=
  let targets := ((ctx.actionId.toList ++ ctx.resource.toList) ++ [ctx.goal]).filter (· ≠ "")
  (targets.findSome? fun target =>
    (candidateTargets target).findSome? fun candidate =>
      ((patterns.find? fun p => globMatch p candidate)).map fun p => (target, candidate, p))
  |>.map (DenyPatternRule.mkDecision ruleId)

/-- `ScopeRule.evaluate`: deny when any required scope is missing. -/
def ScopeRule.evaluate (ruleId : String) (requiredScopes : List String)
    (ctx : PolicyContext) : Option PolicyDecision :=
  let missing := requiredScopes.filter fun s => !(ctx.scopes.contains s)
  if missing.isEmpty then none
  else some
    { effect := .deny
      ruleId := some ruleId
      reason := "Missing required scopes: " ++ joinSep ", " missing
      violations := missing.map fun scope =>
        { ruleId := ruleId, reason := "Missing scope: " ++ scope, details := [("scope", scope)] } }

/-- `RiskTierApprovalRule.evaluate`: require approval for listed tiers. -/
def RiskTierApprovalRule.evaluate (ruleId : String) (riskTiers : List String)
    (ctx : PolicyContext) : Option PolicyDecision :=
  if riskTiers.contains ctx.riskTier then
    some
      { effect := .requireApproval
        ruleId := some ruleId
        reason := "Risk tier '" ++ ctx.riskTier ++ "' requires approval"
        requiresApproval := true
        approvalReason := some ("High-risk operation: " ++ ctx.goal) }
  else none

/-- `RedactionRule.evaluate`: allow-with-constraints listing every
configured pattern that occurs (case-insensitively) in a metadata key. -/
def RedactionRule.evaluate (ruleId : String) (patterns : List String)
    (ctx : PolicyContext) : Option PolicyDecision :=
  let matching := patterns.filter fun p => ctx.metadata.any fun kv => substrCI p kv.1
  if matching.isEmpty then none
  else some
    { effect := .allowWithConstraints
      ruleId := some ruleId
      reason := "Fields require redaction"
      redactions := matching }

/-- An installed rule as the engine sees it: a stable id plus an `evaluate`
that either returns an optional partial decision or raises (`.error` models
a Python exception escaping `rule.evaluate`, carrying its message). -/
structure PolicyRule where
  ruleId : String
  eval : PolicyContext → Except String (Option PolicyDecision)

/-- Wrapper: `DenyPatternRule` never raises. -/
def DenyPatternRule.rule (ruleId : String) (patterns : List String) : PolicyRule :=
  ⟨ruleId, fun ctx => .ok (DenyPatternRule.evaluate ruleId patterns ctx)⟩

/-- Wrapper: `ScopeRule` never raises. -/
def ScopeRule.rule (ruleId : String) (requiredScopes : List String) : PolicyRule :=
  ⟨ruleId, fun ctx => .ok (ScopeRule.evaluate ruleId requiredScopes ctx)⟩

/-- Wrapper: `RiskTierApprovalRule` never raises. -/
def RiskTierApprovalRule.rule (ruleId : String) (riskTiers : List String) : PolicyRule :=
  ⟨ruleId, fun ctx => .ok (RiskTierApprovalRule.evaluate ruleId riskTiers ctx)⟩

/-- Wrapper: `RedactionRule` never raises. -/
def RedactionRule.rule (ruleId : String) (patterns : List String) : PolicyRule :=
  ⟨ruleId, fun ctx => .ok (RedactionRule.evaluate ruleId patterns ctx)⟩

/-- `dict.update`: overwrite existing keys in place, append new ones. -/
def updateAssoc (acc upd : List (String × String)) : List (String × String) :=
  upd.foldl (fun a kv =>
    if a.any fun p => p.1 = kv.1 then a.map fun p => if p.1 = kv.1 then kv else p
    else a ++ [kv]) acc

/-- `list(set(xs))` for the aggregated redactions, modelled as keep-first
deduplication (the source's set iteration order is unspecified; no claim
depends on it). -/
def dedupFirst : List String → List String
  | [] => []
  | x :: xs => x :: (dedupFirst xs).filter (· ≠ x)

/-- Fold state of `PolicyEngine.evaluate` (policy.py lines 387–396). -/
structure EvalAcc where
  violations : List PolicyViolation := []
  redactions : List String := []
  constraints : List (String × String) := []
  requiresApproval : Bool := false
  approvalReason : Option String := none
  finalEffect : PolicyEffect := .allow
  finalRuleId : Option String := none
  finalReason : String := "Allowed by default policy"

/-- The rule loop of `PolicyEngine.evaluate` (policy.py lines 398–444).
There is no `try`/`except` around `rule.evaluate(context)`: a raising rule
(`.error`) propagates out of the loop unchanged. -/
def evaluateGo (ctx : PolicyContext) : List PolicyRule → EvalAcc → Except String PolicyDecision
  | [], acc =>
    .ok
      { effect := acc.finalEffect
        ruleId := acc.finalRuleId
        reason := acc.finalReason
        violations := acc.violations
        constraints := acc.constraints
        redactions := dedupFirst acc.redactions
        requiresApproval := acc.requiresApproval
        approvalReason := acc.approvalReason }
  | r :: rest, acc =>
    match r.eval ctx with
    | .error msg => .error msg
    | .ok none => evaluateGo ctx rest acc
    | .ok (some d) =>
      let acc := { acc with
        violations := acc.violations ++ d.violations
        redactions := acc.redactions ++ d.redactions
        constraints := updateAssoc acc.constraints d.constraints }
      let acc := if d.requiresApproval then
          { acc with requiresApproval := true, approvalReason := d.approvalReason }
        else acc
      if d.effect = .deny then
        .ok { effect := .deny, ruleId := d.ruleId, reason := d.reason,
              violations := acc.violations }
      else
        let acc := if d.effect = .requireApproval ∧ acc.finalEffect ≠ .deny then { acc with finalEffect := .requireApproval, finalRuleId := d.ruleId, finalReason := d.reason } else acc
        let acc := if d.effect = .allowWithConstraints ∧ acc.finalEffect = .allow then { acc with finalEffect := .allowWithConstraints, finalRuleId := d.ruleId, finalReason := d.reason } else acc
        evaluateGo ctx rest acc

/-- `PolicyEngine.evaluate` (policy.py lines 378–444) over an installed
rule list. -/
def PolicyEngine.evaluate (rules : List PolicyRule) (ctx : PolicyContext) :
    Except String PolicyDecision :=
  evaluateGo ctx rules {}

/-- The default rules installed by `PolicyEngine._setup_default_rules`. -/
def defaultRules : List PolicyRule :=
  [DenyPatternRule.rule "deny-dangerous-commands"
    ["rm -rf *", "rm -rf /", "dd if=*", "mkfs.*", ":()\x7b :|:& \x7d;:",
     "*.production.*", "DROP TABLE*", "DELETE FROM*"],
   RiskTierApprovalRule.rule "high-risk-approval" ["high"],
   RedactionRule.rule "redact-secrets"
    ["password", "secret", "token", "api_key", "credential"]]

/-! ### TRACE events (`cra/core/trace.py`) and the tracer
(`cra/runtime/services/tracer.py`) -/

/-- Severity levels (`Severity`). -/
inductive Severity where
  | debug
  | info
  | warn
  | error
deriving DecidableEq, Repr

/-- The event types the embedded services emit (`EventType`). -/
inductive EventType where
  | sessionStarted
  | sessionEnded
  | carpResolveRequested
  | carpResolveReturned
  | carpPolicyDenied
  | actionGranted
  | actionInvoked
  | actionCompleted
  | actionFailed
deriving DecidableEq, Repr

/-- `EventType` string values, as filtered by the event-type query. -/
def EventType.value : EventType → String
  | .sessionStarted => "trace.session.started"
  | .sessionEnded => "trace.session.ended"
  | .carpResolveRequested => "trace.carp.resolve.requested"
  | .carpResolveReturned => "trace.carp.resolve.returned"
  | .carpPolicyDenied => "trace.carp.policy.denied"
  | .actionGranted => "trace.action.granted"
  | .actionInvoked => "trace.action.invoked"
  | .actionCompleted => "trace.action.completed"
  | .actionFailed => "trace.action.failed"

/-- Atlas reference attached to CARP events. -/
structure AtlasRef where
  id : String
  version : String
deriving DecidableEq, Repr

/-- Typed event payloads, one constructor per distinct payload shape the
embedded services emit. -/
inductive EvPayload where
  | sessionStarted (principalType principalId : String) (scopes : List String)
      (ttlSeconds : Nat)
  | sessionEnded (durationSeconds : Nat) (totalEvents resolutions actionsExecuted : Nat)
  | sessionExpired (reason : String) (durationSeconds : Nat)
  | resolveRequested (goal riskTier : String) (targetPlatforms : List String)
  | policyDenied (ruleId : Option String) (reason : String)
      (violations : List PolicyViolation)
  | resolveReturned (resolutionId : Nat) (confidence : ℚ)
      (contextBlockCount allowedActionCount denyRuleCount : Nat)
      (requiresApproval : Bool) (policyEffect : String)
  | approvalPending (grantId : Nat) (actionId : String)
  | actionInvoked (actionId : String) (executionId : Nat) (parametersHash : String)
  | actionCompleted (actionId : String) (executionId : Nat) (durationMs : Nat)
      (resultHash : Option String)
  | actionFailed (actionId : String) (executionId : Nat) (durationMs : Option Nat)
      (errorType errorMessage : Option String)
deriving DecidableEq, Repr

/-- A TRACE event (`TraceEvent`; `trace_version`, `actor` and `artifacts`
are constants for every emission the claims touch and are kept implicit). -/
structure TraceEvent where
  eventType : EventType
  time : Nat
  traceId : Nat
  spanId : Nat
  parentSpanId : Option Nat := none
  sessionId : Nat
  atlas : Option AtlasRef := none
  severity : Severity := .info
  payload : EvPayload
deriving DecidableEq, Repr

/-! ### Shared data model: sessions, grants, executions, approvals -/

/-- Counter bundle of a session (`SessionStats`). -/
structure SessionStats where
  resolutions : Nat := 0
  actionsExecuted : Nat := 0
  actionsFailed : Nat := 0
  totalEvents : Nat := 0
deriving DecidableEq, Repr

/-- Session lifecycle state (`SessionState`). -/
inductive SessionState where
  | active
  | expired
  | ended
deriving DecidableEq, Repr

/-- A session (`cra/core/session.py`, class `Session`). -/
structure Session where
  sessionId : Nat
  traceId : Nat
  principalType : String
  principalId : String
  scopes : List String := []
  state : SessionState := .active
  createdAt : Nat
  expiresAt : Nat
  endedAt : Option Nat := none
  stats : SessionStats := {}
deriving DecidableEq, Repr

/-- Status of an action execution (`ExecutionStatus`). -/
inductive ExecutionStatus where
  | pending
  | approved
  | running
  | completed
  | failed
  | cancelled
  | rejected
deriving DecidableEq, Repr

/-- An action grant (`cra/core/action.py`, class `ActionGrant`). -/
structure ActionGrant where
  grantId : Nat
  resolutionId : Nat
  actionId : String
  kind : String
  adapter : String
  schema : Json
  constraints : List Json := []
  requiresApproval : Bool := false
  approved : Bool := false
  approvedBy : Option String := none
  approvedAt : Option Nat := none
  expiresAt : Nat
  createdAt : Nat

/-- An execution record (`ActionExecution`); `error` is the
`{"type", "message"}` pair built from a handler exception. -/
structure ActionExecution where
  executionId : Nat
  grantId : Nat
  sessionId : Nat
  actionId : String
  parameters : List (String × Json)
  parametersHash : String
  status : ExecutionStatus
  result : Option Json := none
  resultHash : Option String := none
  error : Option (String × String) := none
  startedAt : Option Nat := none
  completedAt : Option Nat := none
  durationMs : Option Nat := none
  traceId : Nat
  spanId : Nat

/-- A pending approval request (`ApprovalRequest`).  Note the model has no
session field at all. -/
structure ApprovalRequest where
  grantId : Nat
  actionId : String
  reason : String
  riskTier : String
  requestedBy : String
  requestedAt : Nat
  context : List (String × String) := []
deriving DecidableEq, Repr

/-- The mutable state of one runtime process: the tracer's per-trace logs,
the session table, and the executor's tables, plus the fresh-id counter
standing in for `uuid4`. -/
structure World where
  tracer : List (Nat × List TraceEvent) := []
  sessions : List (Nat × Session) := []
  grants : List (Nat × ActionGrant) := []
  executions : List (Nat × ActionExecution) := []
  pendingApprovals : List (Nat × ApprovalRequest) := []
  nextId : Nat := 0

/-- In-place update of an assoc list entry (Python `dict` assignment when
the key exists). -/
def updAssoc {α : Type} (l : List (Nat × α)) (k : Nat) (v : α) : List (Nat × α) :=
  l.map fun p => if p.1 == k then (k, v) else p

/-- Python `dict` assignment: overwrite when present, append otherwise. -/
def putAssoc {α : Type} (l : List (Nat × α)) (k : Nat) (v : α) : List (Nat × α) :=
  if l.any fun p => p.1 == k then updAssoc l k v else l ++ [(k, v)]

/-- Events recorded for one trace id (`self._events.get(trace_id, [])`). -/
def traceLog (w : World) (traceId : Nat) : List TraceEvent :=
  ((w.tracer.find? fun p => p.1 == traceId).map (·.2)).getD []

/-- `Tracer.emit` (tracer.py lines 44–107): build the event — with a fresh
span id when none is supplied — and append it to that trace's log.
Subscriber fan-out only copies the event to queues and is not modelled. -/
def Tracer.emit (w : World) (eventType : EventType) (traceId sessionId : Nat)
    (spanId : Option Nat) (parentSpanId : Option Nat) (atlas : Option AtlasRef)
    (severity : Severity) (payload : EvPayload) (now : Nat) : World × TraceEvent :=
  let (sid, w) :=
    match spanId with
    | some s => (s, w)
    | none => (w.nextId, { w with nextId := w.nextId + 1 })
  let event : TraceEvent :=
    { eventType := eventType, time := now, traceId := traceId, spanId := sid
      parentSpanId := parentSpanId, sessionId := sessionId, atlas := atlas
      severity := severity, payload := payload }
  let w := { w with tracer := putAssoc w.tracer traceId (traceLog w traceId ++ [event]) }
  (w, event)

/-- The severity / event-type-prefix filters of `Tracer.get_events`
(tracer.py lines 133–138). -/
def filterEvents (severity : Option Severity) (eventTypePfx : Option String)
    (events : List TraceEvent) : List TraceEvent :=
  let filtered : List TraceEvent :=
    match severity with
    | some s => events.filter fun e => e.severity == s
    | none => events
  match eventTypePfx with
  | some p => filtered.filter fun e => strStartsWith p e.eventType.value
  | none => filtered

/-- `Tracer.get_events` (tracer.py lines 109–143): look up the trace's log
(an unknown id yields the empty list — there is no failure path), filter,
then paginate; the returned total is the filtered count. -/
def Tracer.getEvents (w : World) (traceId : Nat) (severity : Option Severity)
    (eventTypePfx : Option String) (limit offset : Nat) :
    List TraceEvent × Nat :=
  let filtered := filterEvents severity eventTypePfx (traceLog w traceId)
  ((filtered.drop offset).take limit, filtered.length)

/-- Stable insertion by time (model of Python's stable `sorted` with key
`e.time` in `get_all_events_for_session`). -/
def insertByTime (e : TraceEvent) : List TraceEvent → List TraceEvent
  | [] => [e]
  | x :: xs => if x.time ≤ e.time then x :: insertByTime e xs else e :: x :: xs

/-- `Tracer.get_all_events_for_session`: all events of the session across
every trace, sorted by time. -/
def Tracer.eventsForSession (w : World) (sessionId : Nat) : List TraceEvent :=
  (((w.tracer.map (·.2)).flatten).filter fun e => e.sessionId == sessionId).foldl
    (fun acc e => insertByTime e acc) []

/-! ### Session manager (`cra/runtime/services/session_manager.py`) -/

/-- Session lookup in the table. -/
def lookupSession (w : World) (sessionId : Nat) : Option Session :=
  (w.sessions.find? fun p => p.1 == sessionId).map (·.2)

/-- Store a session back (dict assignment keyed by its id). -/
def storeSession (w : World) (s : Session) : World :=
  { w with sessions := putAssoc w.sessions s.sessionId s }

/-- The session-scoped exceptions. -/
inductive SessionError where
  | notFound (sessionId : Nat)
  | expired (sessionId : Nat)
deriving DecidableEq, Repr

/-- `end_session`'s response (`EndSessionResponse`). -/
structure EndSessionResponse where
  sessionId : Nat
  endedAt : Nat
  traceSummary : SessionStats
deriving DecidableEq, Repr

/-- `SessionManager.end_session` (session_manager.py lines 90–130).  The
session is looked up (unknown id → `SessionNotFoundError`) and then ended
unconditionally — there is no already-ended or expired check: `Session.end`
overwrites `state` and `ended_at`, `total_events` is recomputed from the
tracer, a `session.ended` event is emitted, and a fresh summary returned.
The middle component of the result lists the events this call emitted. -/
def SessionManager.endSession (w : World) (sessionId now : Nat) :
    World × List TraceEvent × Except SessionError EndSessionResponse :=
  match lookupSession w sessionId with
  | none => (w, [], .error (.notFound sessionId))
  | some session =>
    let session := { session with state := .ended, endedAt := some now }
    let events := Tracer.eventsForSession w sessionId
    let session := { session with stats := { session.stats with totalEvents := events.length } }
    let w := storeSession w session
    let durationSeconds := now - session.createdAt
    let (w, ev) := Tracer.emit w .sessionEnded session.traceId sessionId none none none
      .info
      (.sessionEnded durationSeconds session.stats.totalEvents session.stats.resolutions
        session.stats.actionsExecuted)
      now
    (w, [ev], .ok { sessionId := sessionId, endedAt := now, traceSummary := session.stats })

/-- `SessionManager.get_session` (session_manager.py lines 132–169):
unknown id → `SessionNotFoundError`; an active session past its
`expires_at` is lazily expired (state flipped, warn-severity
`session.ended` event emitted) and `SessionExpiredError` raised; a
non-active session raises `SessionExpiredError`. -/
def SessionManager.getSession (w : World) (sessionId now : Nat) :
    World × List TraceEvent × Except SessionError Session :=
  match lookupSession w sessionId with
  | none => (w, [], .error (.notFound sessionId))
  | some session =>
    if session.state == .active && !(now < session.expiresAt) then
      let session := { session with state := .expired, endedAt := some now }
      let w := storeSession w session
      let (w, ev) := Tracer.emit w .sessionEnded session.traceId sessionId none none none
        .warn (.sessionExpired "expired" (now - session.createdAt)) now
      (w, [ev], .error (.expired sessionId))
    else if !(session.state == .active) then
      (w, [], .error (.expired sessionId))
    else
      (w, [], .ok session)

/-- `SessionManager.increment_resolution_count`: bump the counter when the
session exists, silently do nothing otherwise. -/
def SessionManager.incrementResolutionCount (w : World) (sessionId : Nat) : World :=
  match lookupSession w sessionId with
  | none => w
  | some s =>
    storeSession w { s with stats := { s.stats with resolutions := s.stats.resolutions + 1 } }

/-- `SessionManager.increment_action_count`: bump the executed or failed
counter when the session exists. -/
def SessionManager.incrementActionCount (w : World) (sessionId : Nat) (failed : Bool) : World :=
  match lookupSession w sessionId with
  | none => w
  | some s =>
    if failed then
      storeSession w { s with stats := { s.stats with actionsFailed := s.stats.actionsFailed + 1 } }
    else
      storeSession w
        { s with stats := { s.stats with actionsExecuted := s.stats.actionsExecuted + 1 } }

/-! ### CARP resolver (`cra/runtime/services/resolver.py`) -/

/-- Task risk classification (`RiskTier`). -/
inductive RiskTier where
  | low
  | medium
  | high
deriving DecidableEq, Repr

/-- `RiskTier.value` strings. -/
def RiskTier.value : RiskTier → String
  | .low => "low"
  | .medium => "medium"
  | .high => "high"

/-- The task block of a CARP request. -/
structure CarpTask where
  goal : String
  riskTier : RiskTier
  constraints : List String := []
  targetPlatforms : List String := []
deriving DecidableEq, Repr

/-- The session block of a CARP request envelope (the resolver builds its
`PolicyContext` from these request fields, not from the stored session). -/
structure CarpSessionBlock where
  sessionId : Nat
  principalType : String
  principalId : String
  scopes : List String := []
deriving DecidableEq, Repr

/-- The trace block of a CARP envelope. -/
structure TraceContextBlock where
  traceId : Nat
  spanId : Nat
  parentSpanId : Option Nat := none
deriving DecidableEq, Repr

/-- A CARP resolve request (the fields of `CARPRequest` the resolver
reads). -/
structure CARPRequest where
  session : CarpSessionBlock
  atlas : Option AtlasRef := none
  task : CarpTask
  trace : TraceContextBlock
deriving DecidableEq, Repr

/-- A context block of a resolution (`ContextBlock`; `content_type` kept as
its string value). -/
structure ContextBlock where
  blockId : String
  purpose : String
  ttlSeconds : Nat
  contentType : String
  content : String
deriving DecidableEq, Repr

/-- Action kinds (`ActionKind`). -/
inductive ActionKind where
  | toolCall
  | mcpCall
  | cliCommand
  | agentTool
deriving DecidableEq, Repr

/-- An allowed action inside a resolution (`AllowedAction`). -/
structure AllowedAction where
  actionId : String
  kind : ActionKind
  adapter : String
  description : String
  jsonSchema : Json
  requiresApproval : Bool

/-- A denylist entry (`DenyRule`). -/
structure DenyRuleEntry where
  pattern : String
  reason : String
deriving DecidableEq, Repr

/-- A next step (`NextStep`). -/
structure NextStep where
  step : String
  expectedArtifacts : List String
deriving DecidableEq, Repr

/-- A resolution (`Resolution`; `merge_rules` is the constant default). -/
structure Resolution where
  resolutionId : Nat
  confidence : ℚ
  contextBlocks : List ContextBlock
  allowedActions : List AllowedAction
  denylist : List DenyRuleEntry
  nextSteps : List NextStep

/-- `Resolver._get_agent_guidelines` (resolver.py lines 339–365). -/
def agentGuidelines : String :=
  "## CRA Agent Contract\n\n### Core Rules\n1. **Always resolve via CARP** before taking any action\n2. **Never guess** tool usage or API behavior\n3. **TRACE is authoritative** - LLM narration is not\n4. **Respect TTLs** on context blocks\n5. **Honor the denylist** - never attempt denied patterns\n\n### Execution Protocol\n1. Request resolution for your task\n2. Review allowed actions and constraints\n3. Request approval if required\n4. Execute only approved actions\n5. Monitor TRACE output for confirmation\n\n### Error Handling\n- If an action fails, check TRACE for details\n- Do not retry without re-resolution\n- Report errors through the proper channels\n"

/-- Python `str(bool)`. -/
def pyBool : Bool → String
  | true => "True"
  | false => "False"

/-- Python `repr` of a plain string (no escapes needed by these values). -/
def pyStrRepr (s : String) : String := "'" ++ s ++ "'"

/-- Python `str(dict)` for a string-valued dict. -/
def pyDictRepr (l : List (String × String)) : String :=
  "\x7b" ++ joinSep ", " (l.map fun kv => pyStrRepr kv.1 ++ ": " ++ pyStrRepr kv.2) ++ "\x7d"

/-- The confidence computation of `Resolver._perform_resolution`
(resolver.py lines 306–315): start at `0.85`, overwrite with `0.75` for
medium and `0.65` for high risk, then multiply by `0.9` when the policy
effect is `allow_with_constraints`.  No rounding is applied anywhere. -/
def computeConfidence (policyDecision : Option PolicyDecision) (riskTier : RiskTier) : ℚ :=
  let confidence : ℚ := 0.85
  let confidence := if riskTier.value = "medium" then 0.75
    else if riskTier.value = "high" then 0.65 else confidence
  match policyDecision with
  | some d => if d.effect = .allowWithConstraints then confidence * 0.9 else confidence
  | none => confidence

/-- The allowed-action list of `Resolver._perform_resolution` (resolver.py
lines 255–281): `cra.echo` carries the policy-or-risk approval flag,
`cra.noop` is always free of approval. -/
def resolutionActions (task : CarpTask) (policyDecision : Option PolicyDecision) :
    List AllowedAction :=
  let requiresApproval :=
    (match policyDecision with
     | some d => d.requiresApproval
     | none => false) || decide (task.riskTier.value = "high")
  [{ actionId := "cra.echo"
     kind := .toolCall
     adapter := "builtin"
     description := "Echo a message for testing"
     jsonSchema := .obj
       [("type", .str "object"),
        ("properties", .obj [("message", .obj [("type", .str "string")])]),
        ("required", .arr [.str "message"])]
     requiresApproval := requiresApproval },
   { actionId := "cra.noop"
     kind := .toolCall
     adapter := "builtin"
     description := "No-operation action for testing"
     jsonSchema := .obj [("type", .str "object"), ("properties", .obj [])]
     requiresApproval := false }]

/-- `Resolver._perform_resolution` (resolver.py lines 181–337). -/
def Resolver.performResolution (task : CarpTask) (policyDecision : Option PolicyDecision)
    (resolutionId : Nat) : Resolution :=
  let contextBlocks : List ContextBlock :=
    [{ blockId := "cra-guidelines"
       purpose := "CRA agent behavior guidelines"
       ttlSeconds := 3600
       contentType := "markdown"
       content := agentGuidelines },
     { blockId := "task-context"
       purpose := "Context for: " ++ task.goal
       ttlSeconds := 1800
       contentType := "markdown"
       content := "## Task Context\n\n**Goal:** " ++ task.goal ++
         "\n**Risk Tier:** " ++ task.riskTier.value ++
         "\n**Constraints:** " ++
         (if task.constraints.isEmpty then "None specified"
          else joinSep ", " task.constraints) ++
         "\n\n### Guidelines\n- Follow the principle of least privilege\n- All actions must be approved before execution\n- TRACE output is authoritative\n" }]
  let contextBlocks := contextBlocks ++
    match policyDecision with
    | none => []
    | some d =>
      let policyContent := "## Policy Evaluation\n\n**Effect:** " ++ d.effect.value ++
        "\n**Requires Approval:** " ++ pyBool d.requiresApproval ++ "\n"
      let policyContent := policyContent ++
        (if d.redactions.isEmpty then ""
         else "\n**Redacted Fields:** " ++ joinSep ", " d.redactions)
      let policyContent := policyContent ++
        (if d.constraints.isEmpty then ""
         else "\n**Constraints:** " ++ pyDictRepr d.constraints)
      [{ blockId := "policy-context"
         purpose := "Policy evaluation results"
         ttlSeconds := 1800
         contentType := "markdown"
         content := policyContent }]
  let requiresApproval :=
    (match policyDecision with
     | some d => d.requiresApproval
     | none => false) || decide (task.riskTier.value = "high")
  let allowedActions := resolutionActions task policyDecision
  let denylist : List DenyRuleEntry :=
    [{ pattern := "*.production.*", reason := "Production access requires explicit scopes" },
     { pattern := "rm -rf *", reason := "Destructive operations not permitted" }]
  let denylist := denylist ++
    match policyDecision with
    | none => []
    | some d =>
      d.violations.filterMap fun v =>
        match (v.details.find? fun kv => kv.1 == "pattern").map (·.2) with
        | some p => if p ≠ "" then some { pattern := p, reason := v.reason } else none
        | none => none
  { resolutionId := resolutionId
    confidence := computeConfidence policyDecision task.riskTier
    contextBlocks := contextBlocks
    allowedActions := allowedActions
    denylist := denylist
    nextSteps :=
      [{ step := "Review the allowed actions and constraints"
         expectedArtifacts := ["action_plan.md"] },
       if requiresApproval then
         { step := "Request approval if required"
           expectedArtifacts := ["approval_request.json"] }
       else
         { step := "Execute approved actions"
           expectedArtifacts := ["execution_log.json"] }] }

/-- The `PolicyContext` the resolver builds from the request envelope
(resolver.py lines 110–117). -/
def policyContextOf (req : CARPRequest) : PolicyContext :=
  { sessionId := req.session.sessionId
    principalType := req.session.principalType
    principalId := req.session.principalId
    scopes := req.session.scopes
    riskTier := req.task.riskTier.value
    goal := req.task.goal }

/-- The resolver's session-scoped and policy errors
(`SessionNotFoundError` / `SessionExpiredError` propagate;
`PolicyDeniedError` carries reason and rule id; `.ruleException` is an
exception escaping `PolicyEngine.evaluate` uncaught). -/
inductive ResolveError where
  | sessionNotFound (sessionId : Nat)
  | sessionExpired (sessionId : Nat)
  | policyDenied (reason : String) (ruleId : Option String)
  | ruleException (message : String)
deriving DecidableEq, Repr

/-- A CARP resolve response (the fields of `CARPResponse` the claims
read). -/
structure CARPResponse where
  responseId : Nat
  time : Nat
  session : CarpSessionBlock
  atlas : Option AtlasRef
  resolution : Resolution
  trace : TraceContextBlock

/-- Resolution assembly, counter bump, response envelope and the
`carp.resolve.returned` emission (resolver.py lines 138–179). -/
def Resolver.finishResolution (w : World) (req : CARPRequest) (now spanId : Nat)
    (evs : List TraceEvent) (policyDecision : Option PolicyDecision) :
    World × List TraceEvent × Except ResolveError CARPResponse :=
  let resolutionId := w.nextId
  let w := { w with nextId := w.nextId + 1 }
  let resolution := Resolver.performResolution req.task policyDecision resolutionId
  let w := SessionManager.incrementResolutionCount w req.session.sessionId
  let responseId := w.nextId
  let w := { w with nextId := w.nextId + 1 }
  let response : CARPResponse :=
    { responseId := responseId
      time := now
      session := req.session
      atlas := req.atlas
      resolution := resolution
      trace := { traceId := req.trace.traceId, spanId := spanId
                 parentSpanId := req.trace.parentSpanId } }
  let (w, evRet) := Tracer.emit w .carpResolveReturned req.trace.traceId
    req.session.sessionId (some spanId) req.trace.parentSpanId req.atlas .info
    (.resolveReturned resolution.resolutionId resolution.confidence
      resolution.contextBlocks.length resolution.allowedActions.length
      resolution.denylist.length
      (resolution.allowedActions.any fun a => a.requiresApproval)
      (match policyDecision with
       | some d => d.effect.value
       | none => "allow")) now
  (w, evs ++ [evRet], .ok response)

/-- `Resolver.resolve` (resolver.py lines 68–179), with the policy engine's
installed rules passed as `policyRules` (`none` models a resolver built
without an engine).  The middle component of the result is the list of
events this call emitted, in order. -/
def Resolver.resolve (policyRules : Option (List PolicyRule)) (w : World)
    (req : CARPRequest) (now : Nat) :
    World × List TraceEvent × Except ResolveError CARPResponse :=
  match SessionManager.getSession w req.session.sessionId now with
  | (w, evs, .error (.notFound sid)) => (w, evs, .error (.sessionNotFound sid))
  | (w, evs, .error (.expired sid)) => (w, evs, .error (.sessionExpired sid))
  | (w, evs, .ok _session) =>
    let spanId := w.nextId
    let w := { w with nextId := w.nextId + 1 }
    let (w, evReq) := Tracer.emit w .carpResolveRequested req.trace.traceId
      req.session.sessionId (some spanId) req.trace.parentSpanId req.atlas .info
      (.resolveRequested req.task.goal req.task.riskTier.value req.task.targetPlatforms) now
    let evs := evs ++ [evReq]
    let decided : Except ResolveError (Option PolicyDecision) :=
      match policyRules with
      | none => .ok none
      | some rules =>
        match PolicyEngine.evaluate rules (policyContextOf req) with
        | .error msg => .error (.ruleException msg)
        | .ok d => .ok (some d)
    match decided with
    | .error e => (w, evs, .error e)
    | .ok policyDecision =>
      match policyDecision with
      | some d =>
        if d.effect = .deny then
          let (w, evDen) := Tracer.emit w .carpPolicyDenied req.trace.traceId
            req.session.sessionId (some spanId) none none .warn
            (.policyDenied d.ruleId d.reason d.violations) now
          (w, evs ++ [evDen], .error (.policyDenied d.reason d.ruleId))
        else
          Resolver.finishResolution w req now spanId evs policyDecision
      | none => Resolver.finishResolution w req now spanId evs policyDecision

/-! ### Action executor (`cra/runtime/services/executor.py`) -/

/-- An action handler: `handler(action_id, parameters) -> result`; `.error`
models an exception escaping the handler, carrying
`(type(e).__name__, str(e))`. -/
def ActionHandler : Type := String → List (String × Json) → Except (String × String) Json

/-- The built-in `echo` handler: `{"echo": params.get("message", ""),
"action_id": action_id}`. -/
def echoHandler : ActionHandler := fun actionId params =>
  .ok (.obj
    [("echo", (((params.find? fun kv => kv.1 == "message").map (·.2)).getD (.str ""))),
     ("action_id", .str actionId)])

/-- The built-in `noop` handler: `{"status": "ok"}`. -/
def noopHandler : ActionHandler := fun _ _ => .ok (.obj [("status", .str "ok")])

/-- The handler table after `_register_builtin_handlers`. -/
def builtinHandlers : String → Option ActionHandler := fun actionId =>
  if actionId = "cra.echo" then some echoHandler
  else if actionId = "cra.noop" then some noopHandler
  else none

/-- `ActionExecutor._execute_action` (executor.py lines 442–465): dispatch
to the registered handler, or fall back to the passthrough result for
unregistered actions. -/
def executeAction (handlers : String → Option ActionHandler) (actionId : String)
    (parameters : List (String × Json)) : Except (String × String) Json :=
  match handlers actionId with
  | none => .ok (.obj
      [("action_id", .str actionId), ("parameters", .obj parameters),
       ("status", .str "passthrough")])
  | some h => h actionId parameters

/-- `ActionExecutor._find_grant_for_action` (executor.py lines 424–440):
first grant in table order matching the resolution and action ids. -/
def findGrantForAction (w : World) (resolutionId : Nat) (actionId : String) :
    Option ActionGrant :=
  (w.grants.map (·.2)).find? fun g =>
    g.resolutionId == resolutionId && g.actionId == actionId

/-- The executor's exceptions, carrying their messages. -/
inductive ExecError where
  | actionNotFound (message : String)
  | actionExpired (message : String)
  | actionNotApproved (message : String)
deriving DecidableEq, Repr

/-- A grant execution request (`ExecuteActionRequest`). -/
structure ExecuteActionRequest where
  sessionId : Nat
  resolutionId : Nat
  actionId : String
  parameters : List (String × Json) := []
  traceId : Nat
  spanId : Nat
  parentSpanId : Option Nat := none

/-- An execution response (`ExecuteActionResponse`; the `trace` echo of
trace/span ids is omitted as redundant with the request). -/
structure ExecuteActionResponse where
  executionId : Nat
  status : ExecutionStatus
  result : Option Json := none
  error : Option (String × String) := none
  durationMs : Option Nat := none

/-- `ActionExecutor.execute` (executor.py lines 298–422).  In order: find
the grant (else `ActionNotFoundError`), check expiry (else
`ActionExpiredError`), check approval (else `ActionNotApprovedError`),
record the execution, emit `action.invoked`, run the handler on the raw
request parameters — the grant's schema snapshot is never consulted —
classify the outcome, bump the session counters, emit
`action.completed`/`action.failed`, and answer.  `now` is the clock at the
pre-checks and `action.invoked`; `after` is the clock at the `finally`
block (`completed_at`). -/
def ActionExecutor.execute (handlers : String → Option ActionHandler) (w : World)
    (req : ExecuteActionRequest) (now after : Nat) :
    World × List TraceEvent × Except ExecError ExecuteActionResponse :=
  match findGrantForAction w req.resolutionId req.actionId with
  | none =>
    (w, [], .error (.actionNotFound
      ("No grant found for action " ++ req.actionId ++ " in resolution " ++
        toString req.resolutionId)))
  | some grant =>
    if grant.expiresAt < now then
      (w, [], .error (.actionExpired ("Grant for " ++ req.actionId ++ " has expired")))
    else if grant.requiresApproval && !grant.approved then
      (w, [], .error (.actionNotApproved (req.actionId ++ " requires approval")))
    else
      let executionId := w.nextId
      let w := { w with nextId := w.nextId + 1 }
      let execution : ActionExecution :=
        { executionId := executionId
          grantId := grant.grantId
          sessionId := req.sessionId
          actionId := req.actionId
          parameters := req.parameters
          parametersHash := hashJson (.obj req.parameters)
          status := .running
          startedAt := some now
          traceId := req.traceId
          spanId := req.spanId }
      let w := { w with executions := w.executions ++ [(executionId, execution)] }
      let (w, evInv) := Tracer.emit w .actionInvoked req.traceId req.sessionId
        (some req.spanId) req.parentSpanId none .info
        (.actionInvoked req.actionId executionId execution.parametersHash) now
      let execution :=
        match executeAction handlers req.actionId req.parameters with
        | .ok result =>
          { execution with status := .completed, result := some result, resultHash := some (hashJson result) }
        | .error e => { execution with status := .failed, error := some e }
      let durationMs := (after - now) * 1000
      let execution := { execution with completedAt := some after, durationMs := some durationMs }
      let w := { w with executions := updAssoc w.executions executionId execution }
      let w := SessionManager.incrementActionCount w req.sessionId
        (execution.status == .failed)
      let (w, evDone) :=
        if execution.status == .completed then
          Tracer.emit w .actionCompleted req.traceId req.sessionId
            (some req.spanId) req.parentSpanId none .info
            (.actionCompleted req.actionId executionId durationMs execution.resultHash) after
        else
          Tracer.emit w .actionFailed req.traceId req.sessionId
            (some req.spanId) req.parentSpanId none .info
            (.actionFailed req.actionId executionId (some durationMs)
              (execution.error.map (·.1)) (execution.error.map (·.2))) after
      (w, [evInv, evDone], .ok
        { executionId := executionId
          status := execution.status
          result := execution.result
          error := execution.error
          durationMs := execution.durationMs })

/-- `ActionExecutor.grant_action` (executor.py lines 103–143). -/
def ActionExecutor.grantAction (w : World) (resolutionId : Nat) (actionId kind adapter : String)
    (schema : Json) (constraints : List Json) (requiresApproval : Bool)
    (ttlSeconds now : Nat) : World × ActionGrant :=
  let grant : ActionGrant :=
    { grantId := w.nextId
      resolutionId := resolutionId
      actionId := actionId
      kind := kind
      adapter := adapter
      schema := schema
      constraints := constraints
      requiresApproval := requiresApproval
      expiresAt := now + ttlSeconds
      createdAt := now }
  let w := { w with nextId := w.nextId + 1 }
  ({ w with grants := putAssoc w.grants grant.grantId grant }, grant)

/-- `ActionExecutor.request_approval` (executor.py lines 145–196): look up
the grant (else `ActionNotFoundError`), record the pending request keyed by
grant id, and emit an `action.granted` event flagged `pending_approval`.
The session id is used only for the event, never stored in the request. -/
def ActionExecutor.requestApproval (w : World) (grantId sessionId traceId : Nat)
    (reason riskTier requestedBy : String) (now : Nat) :
    World × List TraceEvent × Except ExecError ApprovalRequest :=
  match (w.grants.find? fun p => p.1 == grantId).map (·.2) with
  | none => (w, [], .error (.actionNotFound ("Grant " ++ toString grantId ++ " not found")))
  | some grant =>
    let request : ApprovalRequest :=
      { grantId := grantId
        actionId := grant.actionId
        reason := reason
        riskTier := riskTier
        requestedBy := requestedBy
        requestedAt := now }
    let w := { w with pendingApprovals := putAssoc w.pendingApprovals grantId request }
    let (w, ev) := Tracer.emit w .actionGranted traceId sessionId none none none .info
      (.approvalPending grantId grant.actionId) now
    (w, [ev], .ok request)

/-- `ActionExecutor.get_pending_approvals` (executor.py lines 491–502): the
`session_id` argument is accepted and ignored; the whole pending table is
returned. -/
def ActionExecutor.getPendingApprovals (w : World) (_sessionId : Option Nat) :
    List ApprovalRequest :=
  w.pendingApprovals.map (·.2)

/-- Modelled from the spec: §4.6 pre-execution check 4 prescribes a
JSON-schema-style validation of the request parameters against
`grant.schema` ("strict: unknown fields rejected if `additionalProperties`
is false or unset at the action level", violations becoming `ActionFailed`
with `error_type = "validation"`); the source `ActionExecutor.execute`
contains no such step, so this definition exists only to compare the spec's
validation verdict with what the code does.  It checks the schema fragment
the built-in actions use: `required` names must be present, present fields
must be declared under `properties` unless `additionalProperties` is
`true`, and declared scalar `type`s must match. -/
def validateParamsSpec (schema : Json) (params : List (String × Json)) : Bool :=
  match schema with
  | .obj fields =>
    let props :=
      match ((fields.find? fun kv => kv.1 == "properties").map (·.2) : Option Json) with
      | some (.obj ps) => ps
      | _ => []
    let required :=
      match ((fields.find? fun kv => kv.1 == "required").map (·.2) : Option Json) with
      | some (.arr rs) => rs.filterMap fun j =>
          match j with
          | Json.str s => some s
          | _ => (none : Option String)
      | _ => []
    let addl :=
      match ((fields.find? fun kv => kv.1 == "additionalProperties").map (·.2) : Option Json) with
      | some (.bool b) => b
      | _ => false
    let requiredOk := required.all fun r => params.any fun kv => kv.1 == r
    let knownOk := addl || params.all fun kv => props.any fun p => p.1 == kv.1
    let typesOk := params.all fun kv =>
      match ((props.find? fun p => p.1 == kv.1).map (·.2) : Option Json) with
      | some (.obj pd) =>
        match ((pd.find? fun e => e.1 == "type").map (·.2) : Option Json) with
        | some (.str "string") =>
          match kv.2 with
          | .str _ => true
          | _ => false
        | some (.str "object") =>
          match kv.2 with
          | .obj _ => true
          | _ => false
        | some (.str "number") =>
          match kv.2 with
          | .num _ => true
          | _ => false
        | some (.str "integer") =>
          match kv.2 with
          | .num _ => true
          | _ => false
        | some (.str "boolean") =>
          match kv.2 with
          | .bool _ => true
          | _ => false
        | some (.str "array") =>
          match kv.2 with
          | .arr _ => true
          | _ => false
        | _ => true
      | _ => true
    requiredOk && knownOk && typesOk
  | _ => true

/-- Decidable equality for `Except` results, used to evaluate concrete
outcomes. -/
instance {ε α : Type} [DecidableEq ε] [DecidableEq α] : DecidableEq (Except ε α) :=
  fun a b =>
    match a, b with
    | .error e, .error f =>
      if h : e = f then .isTrue (by rw [h]) else .isFalse fun hh => h (by cases hh; rfl)
    | .ok x, .ok y =>
      if h : x = y then .isTrue (by rw [h]) else .isFalse fun hh => h (by cases hh; rfl)
    | .error _, .ok _ => .isFalse fun hh => by cases hh
    | .ok _, .error _ => .isFalse fun hh => by cases hh

/-! ### Concrete fixtures used by the witnesses and counterexamples -/

/-- A started session: principal `alice`, trace 10, ttl 3600. -/
def sampleSession : Session :=
  { sessionId := 1, traceId := 10, principalType := "user", principalId := "alice",
    createdAt := 0, expiresAt := 3600 }

/-- The `session.started` event of `sampleSession`. -/
def sampleStartEvent : TraceEvent :=
  { eventType := .sessionStarted, time := 0, traceId := 10, spanId := 2, sessionId := 1,
    payload := .sessionStarted "user" "alice" [] 3600 }

/-- A world holding `sampleSession` and its start event. -/
def sampleWorld : World :=
  { tracer := [(10, [sampleStartEvent])], sessions := [(1, sampleSession)], nextId := 20 }

/-- The world after ending session 1 at t = 10. -/
def endedOnceWorld : World := (SessionManager.endSession sampleWorld 1 10).1

/-- The world after ending session 1 a second time, at t = 20. -/
def endedTwiceWorld : World := (SessionManager.endSession endedOnceWorld 1 20).1

/-- The `{"b": 1, "a": [2, 3]}` payload of the hashing scenario. -/
def hashPayloadBA : Json := .obj [("b", .num 1), ("a", .arr [.num 2, .num 3])]

/-- The same payload with the opposite key insertion order. -/
def hashPayloadAB : Json := .obj [("a", .arr [.num 2, .num 3]), ("b", .num 1)]

/-- The parameter schema the resolver attaches to `cra.echo`. -/
def echoSchema : Json :=
  .obj
    [("type", .str "object"),
     ("properties", .obj [("message", .obj [("type", .str "string")])]),
     ("required", .arr [.str "message"])]

/-- An unexpired, approval-free grant of `cra.echo` under resolution 7,
with the echo schema snapshot. -/
def echoGrant : ActionGrant :=
  { grantId := 5, resolutionId := 7, actionId := "cra.echo", kind := "tool_call",
    adapter := "builtin", schema := echoSchema, expiresAt := 100, createdAt := 0 }

/-- A world holding `sampleSession` and `echoGrant`. -/
def echoGrantWorld : World :=
  { tracer := [(10, [sampleStartEvent])], sessions := [(1, sampleSession)],
    grants := [(5, echoGrant)], nextId := 20 }

/-- An execute request whose parameters violate the echo schema: `message`
is missing and `bogus` is an unknown field. -/
def bogusEchoRequest : ExecuteActionRequest :=
  { sessionId := 1, resolutionId := 7, actionId := "cra.echo",
    parameters := [("bogus", .num 1)], traceId := 10, spanId := 12 }

/-- A second grant, of `cra.noop`, under resolution 8. -/
def noopGrant : ActionGrant :=
  { grantId := 6, resolutionId := 8, actionId := "cra.noop", kind := "tool_call",
    adapter := "builtin", schema := .obj [("type", .str "object"), ("properties", .obj [])],
    expiresAt := 100, createdAt := 0 }

/-- A world holding both grants and no sessions. -/
def twoGrantWorld : World := { grants := [(5, echoGrant), (6, noopGrant)], nextId := 50 }

/-- `twoGrantWorld` after session 1 requests approval for grant 5. -/
def approvalWorld1 : World :=
  (ActionExecutor.requestApproval twoGrantWorld 5 1 10 "needs approval" "high" "alice" 0).1

/-- `approvalWorld1` after a different session, 2, requests approval for
grant 6. -/
def approvalWorld2 : World :=
  (ActionExecutor.requestApproval approvalWorld1 6 2 20 "needs approval" "high" "bob" 1).1

/-- A policy context whose goal is the free-text production deployment. -/
def deployContext : PolicyContext :=
  { sessionId := 1, principalType := "user", principalId := "alice", scopes := [],
    riskTier := "medium", goal := "Deploy to production environment" }

/-- A policy context whose goal uses underscores instead of spaces (no
character outside letters, digits, `_`, `.`, `-`). -/
def underscoreContext : PolicyContext :=
  { sessionId := 1, principalType := "user", principalId := "alice", scopes := [],
    riskTier := "medium", goal := "deploy_to_production" }

/-- A harmless low-risk context that triggers none of the default rules. -/
def benignContext : PolicyContext :=
  { sessionId := 1, principalType := "user", principalId := "alice", scopes := [],
    riskTier := "low", goal := "Echo a friendly message" }

/-- An installed rule whose `evaluate` raises an exception with message
`boom` (the claim quantifies over arbitrary installed rules). -/
def throwRule : PolicyRule := ⟨"boom-rule", fun _ => .error "boom"⟩

/-- A policy decision requiring approval (as `RiskTierApprovalRule`
produces, reduced to the fields the resolver reads). -/
def approvalDecision : PolicyDecision := { effect := .requireApproval, requiresApproval := true }

/-- A policy decision with effect `allow_with_constraints`. -/
def constraintsDecision : PolicyDecision := { effect := .allowWithConstraints }

/-- A low-risk echo task. -/
def lowTask : CarpTask := { goal := "Echo a friendly message", riskTier := .low }

/-- A medium-risk task. -/
def mediumTask : CarpTask := { goal := "Summarize the report", riskTier := .medium }

/-- A CARP request from `sampleSession` for the production-deployment
goal. -/
def deployRequest : CARPRequest :=
  { session := { sessionId := 1, principalType := "user", principalId := "alice" },
    task := { goal := "Deploy to production environment", riskTier := .medium },
    trace := { traceId := 10, spanId := 11 } }

/-- The decision the default engine reaches on `deployContext` /
`deployRequest` (deny by the `*.production.*` pattern). -/
def deployDenyDecision : PolicyDecision :=
  { effect := .deny
    ruleId := some "deny-dangerous-commands"
    reason := "Denied by pattern: *.production.*"
    violations :=
      [{ ruleId := "deny-dangerous-commands"
         reason := "Matched deny pattern"
         details :=
           [("pattern", "*.production.*"),
            ("matched", "Deploy to production environment"),
            ("normalized_match", "deploy.to.production.environment")] }] }

/-! ### Lemmas about the canonical key ordering and serialization -/

theorem kvSorted_cons {β : Type} {y : String × β} {ys : List (String × β)} :
    KvSorted (y :: ys) ↔ (∀ z ∈ ys, strLt z.1 y.1 = false) ∧ KvSorted ys :=
  List.pairwise_cons

theorem sortJson_arr (es : List Json) : sortJson (.arr es) = .arr (sortJsonList es) := rfl

theorem sortJson_obj (ms : List (String × Json)) :
    sortJson (.obj ms) = .obj (sortKvs (sortJsonKvs ms)) := rfl

theorem sortJsonList_cons (e : Json) (es : List Json) :
    sortJsonList (e :: es) = sortJson e :: sortJsonList es := rfl

theorem sortJsonKvs_cons (k : String) (v : Json) (ms : List (String × Json)) :
    sortJsonKvs ((k, v) :: ms) = (k, sortJson v) :: sortJsonKvs ms := rfl

theorem charListLt_asymm : ∀ a b : List Char,
    charListLt a b = true → charListLt b a = false := by
  intro a
  induction a with
  | nil => intro b _; cases b <;> simp [charListLt]
  | cons x xs ih =>
    intro b h
    cases b with
    | nil => simp [charListLt] at h
    | cons y ys =>
      unfold charListLt at h ⊢
      split_ifs at h ⊢ <;>
        first
          | rfl
          | omega
          | exact ih ys h
          | exact absurd h (by simp)

theorem charListLt_nlt_trans : ∀ a b c : List Char,
    charListLt b a = false → charListLt c b = false → charListLt c a = false := by
  intro a
  induction a with
  | nil =>
    intro b c hba hcb
    cases b <;> cases c <;> simp_all [charListLt]
  | cons x xs ih =>
    intro b c hba hcb
    cases b with
    | nil => cases c <;> simp_all [charListLt]
    | cons y ys =>
      cases c with
      | nil => simp [charListLt] at hcb
      | cons z zs =>
        unfold charListLt at hba hcb ⊢
        split_ifs at hba hcb ⊢ <;>
          first
            | rfl
            | omega
            | exact ih ys zs hba hcb
            | exact absurd hba (by simp)
            | exact absurd hcb (by simp)

theorem strLt_nlt_trans {a b c : String} (hba : strLt b a = false)
    (hcb : strLt c b = false) : strLt c a = false :=
  charListLt_nlt_trans a.data b.data c.data hba hcb

theorem mem_insertKv {β : Type} {z x : String × β} :
    ∀ {l : List (String × β)}, z ∈ insertKv x l → z = x ∨ z ∈ l := by
  intro l
  induction l with
  | nil => intro h; simp [insertKv] at h; exact Or.inl h
  | cons w ws ihw =>
    intro h
    unfold insertKv at h
    split_ifs at h with hw
    · rcases List.mem_cons.mp h with h1 | h1
      · exact Or.inr (by simp [h1])
      · rcases ihw h1 with h2 | h2
        · exact Or.inl h2
        · exact Or.inr (List.mem_cons_of_mem _ h2)
    · rcases List.mem_cons.mp h with h1 | h1
      · exact Or.inl h1
      · exact Or.inr h1

theorem insertKv_kvSorted {β : Type} (x : String × β) :
    ∀ l : List (String × β), KvSorted l → KvSorted (insertKv x l) := by
  intro l
  induction l with
  | nil => intro _; simp [insertKv, KvSorted]
  | cons y ys ih =>
    intro h
    rw [kvSorted_cons] at h
    unfold insertKv
    split_ifs with hlt
    · refine kvSorted_cons.mpr ⟨?_, ih h.2⟩
      intro z hz
      rcases mem_insertKv hz with rfl | hz'
      · exact charListLt_asymm _ _ hlt
      · exact h.1 z hz'
    · refine kvSorted_cons.mpr ⟨?_, kvSorted_cons.mpr h⟩
      intro z hz
      rcases List.mem_cons.mp hz with h1 | hz'
      · rw [h1]; simpa using hlt
      · exact strLt_nlt_trans (by simpa using hlt) (h.1 z hz')

theorem sortKvs_kvSorted {β : Type} :
    ∀ l : List (String × β), KvSorted (sortKvs l) := by
  intro l
  induction l with
  | nil => simp [sortKvs, KvSorted]
  | cons x xs ih => exact insertKv_kvSorted x _ ih

theorem insertKv_of_head_nlt {β : Type} (x : String × β) :
    ∀ l : List (String × β), (∀ y ∈ l, strLt y.1 x.1 = false) → insertKv x l = x :: l := by
  intro l h
  cases l with
  | nil => rfl
  | cons y ys =>
    unfold insertKv
    have := h y (by simp)
    simp [this]

theorem sortKvs_of_kvSorted {β : Type} :
    ∀ l : List (String × β), KvSorted l → sortKvs l = l := by
  intro l
  induction l with
  | nil => intro _; rfl
  | cons x xs ih =>
    intro h
    rw [kvSorted_cons] at h
    rw [sortKvs, ih h.2, insertKv_of_head_nlt x xs h.1]

theorem sortKvs_idem {β : Type} (l : List (String × β)) :
    sortKvs (sortKvs l) = sortKvs l :=
  sortKvs_of_kvSorted _ (sortKvs_kvSorted l)

theorem sortJsonKvs_insertKv (x : String × Json) :
    ∀ l : List (String × Json),
      sortJsonKvs (insertKv x l) = insertKv (x.1, sortJson x.2) (sortJsonKvs l) := by
  intro l
  induction l with
  | nil => cases x; rfl
  | cons y ys ih =>
    cases y with
    | mk k v =>
      unfold insertKv
      split_ifs with hlt
      · rw [sortJsonKvs_cons, ih, sortJsonKvs_cons]
        unfold insertKv
        simp [hlt]
      · cases x with
        | mk xk xv =>
          rw [sortJsonKvs_cons, sortJsonKvs_cons]
          unfold insertKv
          simp only at hlt
          simp [hlt]

theorem sortJsonKvs_sortKvs :
    ∀ l : List (String × Json), sortJsonKvs (sortKvs l) = sortKvs (sortJsonKvs l) := by
  intro l
  induction l with
  | nil => rfl
  | cons x xs ih =>
    cases x with
    | mk k v =>
      rw [sortKvs, sortJsonKvs_insertKv, ih, sortJsonKvs, sortKvs]

mutual
theorem sortJson_idem : (j : Json) → sortJson (sortJson j) = sortJson j
  | .null => rfl
  | .bool _ => rfl
  | .num _ => rfl
  | .str _ => rfl
  | .arr es => by rw [sortJson, sortJson, sortJsonList_idem es]
  | .obj ms => by
    rw [sortJson, sortJson, sortJsonKvs_sortKvs, sortJsonKvs_idem ms, sortKvs_idem]

theorem sortJsonList_idem : (es : List Json) → sortJsonList (sortJsonList es) = sortJsonList es
  | [] => rfl
  | e :: es => by rw [sortJsonList, sortJsonList, sortJson_idem e, sortJsonList_idem es]

theorem sortJsonKvs_idem : (ms : List (String × Json)) → sortJsonKvs (sortJsonKvs ms) = sortJsonKvs ms
  | [] => rfl
  | (k, v) :: ms => by
    rw [sortJsonKvs, sortJsonKvs, sortJson_idem v, sortJsonKvs_idem ms]
end

/-- Canonical serialization depends only on the key-sorted value. -/
theorem dumps_sortJson (j : Json) : dumps (sortJson j) = dumps j := by
  unfold dumps
  rw [sortJson_idem]

/-- The audit hash depends only on the key-sorted value. -/
theorem hashJson_sortJson (j : Json) : hashJson (sortJson j) = hashJson j := by
  unfold hashJson
  rw [dumps_sortJson]


/-! ### Assoc-table and search lemmas -/

theorem find?_updAssoc {α : Type} (k : Nat) (v : α) :
    ∀ l : List (Nat × α), (l.any fun p => p.1 == k) = true →
      ((updAssoc l k v).find? fun p => p.1 == k) = some (k, v) := by
  intro l
  induction l with
  | nil => intro h; simp at h
  | cons x xs ih =>
    intro h
    have hmap : updAssoc (x :: xs) k v =
        (if x.1 == k then (k, v) else x) :: updAssoc xs k v := by
      simp [updAssoc]
    rw [hmap]
    by_cases hx : (x.1 == k) = true
    · rw [if_pos hx]
      exact List.find?_cons_of_pos _ (by simp)
    · rw [if_neg hx]
      have hx' : (x.1 == k) = false := by simpa using hx
      simp only [List.find?, hx']
      simp only [List.any_cons, hx', Bool.false_or] at h
      exact ih h

theorem find?_appendSingle {α : Type} (k : Nat) (v : α) :
    ∀ l : List (Nat × α), (l.any fun p => p.1 == k) = false →
      ((l ++ [(k, v)]).find? fun p => p.1 == k) = some (k, v) := by
  intro l
  induction l with
  | nil => intro _; simp [List.find?]
  | cons x xs ih =>
    intro h
    simp only [List.any_cons, Bool.or_eq_false_iff] at h
    simp [List.find?, h.1, ih h.2]

theorem find?_putAssoc {α : Type} (l : List (Nat × α)) (k : Nat) (v : α) :
    ((putAssoc l k v).find? fun p => p.1 == k) = some (k, v) := by
  unfold putAssoc
  by_cases h : (l.any fun p => p.1 == k) = true
  · simp only [h, if_true]
    exact find?_updAssoc k v l h
  · simp only [Bool.not_eq_true] at h
    simp only [h, Bool.false_eq_true, if_false]
    exact find?_appendSingle k v l h

theorem findSome?_isSome {α β : Type} (f : α → Option β) (a : α) :
    ∀ l : List α, a ∈ l → (f a).isSome = true → (l.findSome? f).isSome = true := by
  intro l
  induction l with
  | nil => intro h; simp at h
  | cons x xs ih =>
    intro hmem hf
    rcases List.mem_cons.mp hmem with rfl | hmem'
    · rcases ho : f a with _ | b
      · rw [ho] at hf; simp at hf
      · simp [List.findSome?, ho]
    · rcases ho : f x with _ | b
      · simpa [List.findSome?, ho] using ih hmem' hf
      · simp [List.findSome?, ho]

/-! ### Claim theorems -/

/-- C8 (amended): `Tracer.get_events` never fails: a trace id absent from
the store yields the empty page with total 0 — indistinguishable from a
known trace whose filtered log is empty — and a known trace returns its
filtered, paginated events with the filtered count as total. -/
theorem C8_get_events_no_not_found :
    ∀ (w : World) (tid : Nat) (sev : Option Severity) (pfx : Option String)
      (limit offset : Nat),
      ((w.tracer.find? fun p => p.1 == tid) = none →
        Tracer.getEvents w tid sev pfx limit offset = ([], 0)) ∧
      (∀ evs, (w.tracer.find? fun p => p.1 == tid) = some (tid, evs) →
        Tracer.getEvents w tid sev pfx limit offset =
          (((filterEvents sev pfx evs).drop offset).take limit,
            (filterEvents sev pfx evs).length)) := by
  intro w tid sev pfx limit offset
  constructor
  · intro h
    simp [Tracer.getEvents, traceLog, h, filterEvents]
    cases sev <;> cases pfx <;> simp
  · intro evs h
    simp [Tracer.getEvents, traceLog, h]

/-- C8 witness: querying `sampleWorld` for the never-emitted trace 99
returns the empty page, via the theorem. -/
theorem C8_witness :
    Tracer.getEvents sampleWorld 99 none none 100 0 = ([], 0) :=
  (C8_get_events_no_not_found sampleWorld 99 none none 100 0).1 (by decide)

/-- C8 counterexample to the claim as stated: the query path of
`Tracer.get_events` has no failure outcome at all (its result type is a
plain page).  An unknown trace id (99, never emitted to) returns the
ordinary empty page rather than a `NotFound` failure, and the result is
identical to querying the known trace 10 with a filter that matches
nothing. -/
theorem C8_counterexample :
    Tracer.getEvents sampleWorld 99 none none 100 0 = ([], 0) ∧
    Tracer.getEvents sampleWorld 10 (some .error) none 100 0 = ([], 0) ∧
    Tracer.getEvents sampleWorld 10 none none 100 0 = ([sampleStartEvent], 1) := by
  decide

/-- C9: hashes of equal-by-value payloads (same recursively key-sorted
form) are equal regardless of key insertion order; canonicalisation is
idempotent (re-sorting a sorted value changes nothing, and the canonical
dump of the sorted value is the canonical dump of the original); and the
two concrete payloads `{"b": 1, "a": [2, 3]}` and `{"a": [2, 3], "b": 1}`
produce the same digest. -/
theorem C9_canonical_hash_order_independent :
    (∀ x y : Json, sortJson x = sortJson y → hashJson x = hashJson y) ∧
    (∀ x : Json, sortJson (sortJson x) = sortJson x ∧ dumps (sortJson x) = dumps x) ∧
    hashJson hashPayloadBA = hashJson hashPayloadAB := by
  refine ⟨?_, ?_, ?_⟩
  · intro x y h
    show sha256Hex (utf8Bytes (render (sortJson x))) =
      sha256Hex (utf8Bytes (render (sortJson y)))
    rw [h]
  · intro x
    exact ⟨sortJson_idem x, dumps_sortJson x⟩
  · exact congrArg sha256Hex (congrArg utf8Bytes
      (show dumps hashPayloadBA = dumps hashPayloadAB from rfl))

/-- C9 witness: the theorem applied at the two concrete payloads, the
equal-by-value hypothesis discharged by evaluation. -/
theorem C9_witness : hashJson hashPayloadBA = hashJson hashPayloadAB :=
  C9_canonical_hash_order_independent.1 hashPayloadBA hashPayloadAB rfl

/-- C10: `get_pending_approvals` ignores its optional `session_id`
argument — every value of it (including `none`) returns the same list, the
whole pending table — and concretely, after sessions 1 and 2 each request
approval for their own grant, asking for session 1's pending approvals
returns both requests, including session 2's. -/
theorem C10_pending_approvals_ignore_session :
    (∀ (w : World) (a b : Option Nat),
      ActionExecutor.getPendingApprovals w a = ActionExecutor.getPendingApprovals w b ∧
      ActionExecutor.getPendingApprovals w a = w.pendingApprovals.map (·.2)) ∧
    (∀ sid : Option Nat,
      ActionExecutor.getPendingApprovals approvalWorld2 sid =
        [{ grantId := 5, actionId := "cra.echo", reason := "needs approval",
           riskTier := "high", requestedBy := "alice", requestedAt := 0 },
         { grantId := 6, actionId := "cra.noop", reason := "needs approval",
           riskTier := "high", requestedBy := "bob", requestedAt := 1 }]) := by
  refine ⟨fun w a b => ⟨rfl, rfl⟩, fun sid => ?_⟩
  simp only [ActionExecutor.getPendingApprovals]
  decide

/-- Any-match implies `find?` succeeds. -/
theorem find?_isSome_of_any {α : Type} (p : α → Bool) :
    ∀ l : List α, l.any p = true → (l.find? p).isSome = true := by
  intro l
  induction l with
  | nil => intro h; simp at h
  | cons x xs ih =>
    intro h
    by_cases hx : p x = true
    · simp [List.find?, hx]
    · have hx' : p x = false := by simpa using hx
      simp only [List.any_cons, hx', Bool.false_or] at h
      simpa [List.find?, hx'] using ih h

/-- C3 (amended): in every resolution the allowed-action ids are pairwise
distinct, and the approval flags are: `cra.echo` carries the OR of the
policy decision's `requires_approval` and the task's risk tier being
`high`, while `cra.noop`'s flag is hard-coded `false`, unaffected by the
policy decision and the risk tier. -/
theorem C3_allowed_action_flags :
    ∀ (pd : Option PolicyDecision) (task : CarpTask) (rid : Nat),
      ((Resolver.performResolution task pd rid).allowedActions.map (·.actionId)).Nodup ∧
      ((Resolver.performResolution task pd rid).allowedActions.map
          fun a => (a.actionId, a.requiresApproval)) =
        [("cra.echo",
          (match pd with
           | some d => d.requiresApproval
           | none => false) || decide (task.riskTier.value = "high")),
         ("cra.noop", false)] := by
  intro pd task rid
  exact ⟨by show (["cra.echo", "cra.noop"] : List String).Nodup; decide, rfl⟩

/-- C3 counterexample to the claim as stated: with a policy decision whose
`requires_approval` is true and a low-risk task, the claimed OR form makes
every action's flag true, yet `cra.noop` is returned with
`requires_approval = false`. -/
theorem C3_counterexample :
    approvalDecision.requiresApproval = true ∧
    ((Resolver.performResolution lowTask (some approvalDecision) 0).allowedActions.map
        fun a => (a.actionId, a.requiresApproval)) =
      [("cra.echo", true), ("cra.noop", false)] ∧
    ((Resolver.performResolution lowTask (some approvalDecision) 0).allowedActions.all
        fun a => !approvalDecision.requiresApproval || a.requiresApproval) = false :=
  ⟨rfl, rfl, rfl⟩

/-- C5 (amended): the resolver's confidence starts at 0.85, is replaced by
0.75 for medium risk and 0.65 for high risk, and is then multiplied by 0.9
exactly when the policy decision's effect is `allow_with_constraints`; no
rounding is applied; in particular a low-risk request with no policy
decision yields exactly 0.85. -/
theorem C5_confidence_formula :
    ∀ (pd : Option PolicyDecision) (task : CarpTask) (rid : Nat),
      (Resolver.performResolution task pd rid).confidence = computeConfidence pd task.riskTier ∧
      computeConfidence pd task.riskTier =
        (if task.riskTier = .medium then (0.75 : ℚ)
         else if task.riskTier = .high then 0.65 else 0.85) *
        (match pd with
         | some d => if d.effect = .allowWithConstraints then (0.9 : ℚ) else 1
         | none => 1) ∧
      computeConfidence none .low = 0.85 := by
  intro pd task rid
  refine ⟨rfl, ?_, by simp +decide [computeConfidence, RiskTier.value]⟩
  rcases pd with _ | d
  · cases task.riskTier <;> simp +decide [computeConfidence, RiskTier.value]
  · rcases d with ⟨eff, r1, r2, r3, r4, r5, r6, r7⟩
    cases task.riskTier <;> cases eff <;>
      simp +decide [computeConfidence, RiskTier.value]

/-- C5 counterexample to the claim as stated: a medium-risk request whose
policy decision added constraints gets confidence 0.75 × 0.9 = 0.675 —
neither the 0.75 the claimed order of operations produces, nor any value
rounded to two decimals (0.675 × 100 is not an integer). -/
theorem C5_counterexample :
    computeConfidence (some constraintsDecision) RiskTier.medium = 27 / 40 ∧
    computeConfidence (some constraintsDecision) RiskTier.medium ≠ 3 / 4 ∧
    (computeConfidence (some constraintsDecision) RiskTier.medium * 100).den ≠ 1 := by
  refine ⟨?_, ?_, ?_⟩ <;>
    simp +decide [computeConfidence, constraintsDecision, RiskTier.value] <;> norm_num

/-- The engine's rule loop maps a raising rule to `.error` whatever the
accumulated state, provided no earlier rule denies (which would
short-circuit first) or raises. -/
theorem evaluateGo_error (ctx : PolicyContext) (r : PolicyRule) (msg : String)
    (post : List PolicyRule) (hr : r.eval ctx = .error msg) :
    ∀ pre : List PolicyRule,
      (∀ q ∈ pre, ∃ od, q.eval ctx = .ok od ∧ ∀ d, od = some d → d.effect ≠ .deny) →
      ∀ acc : EvalAcc, evaluateGo ctx (pre ++ r :: post) acc = .error msg := by
  intro pre
  induction pre with
  | nil => intro _ acc; simp [evaluateGo, hr]
  | cons q qs ih =>
    intro h acc
    obtain ⟨od, hq, hod⟩ := h q (by simp)
    have hqs : ∀ q' ∈ qs, ∃ od, q'.eval ctx = .ok od ∧ ∀ d, od = some d → d.effect ≠ .deny :=
      fun q' hq' => h q' (by simp [hq'])
    cases od with
    | none =>
      simp only [List.cons_append, evaluateGo, hq]
      exact ih hqs acc
    | some d =>
      have hde : ¬(d.effect = .deny) := hod d rfl
      simp only [List.cons_append, evaluateGo, hq, hde, if_false]
      exact ih hqs _

/-- C4 (amended): an exception inside a rule's `evaluate` propagates
uncaught out of `PolicyEngine.evaluate`: when every rule before the
throwing rule returns either no decision or a non-deny decision, the
engine's result is the exception itself, not a synthesized deny
decision. -/
theorem C4_rule_exception_propagates :
    ∀ (ctx : PolicyContext) (pre post : List PolicyRule) (r : PolicyRule) (msg : String),
      (∀ q ∈ pre, ∃ od, q.eval ctx = .ok od ∧ ∀ d, od = some d → d.effect ≠ .deny) →
      r.eval ctx = .error msg →
      PolicyEngine.evaluate (pre ++ r :: post) ctx = .error msg := by
  intro ctx pre post r msg h hr
  exact evaluateGo_error ctx r msg post hr pre h {}

/-- C4 witness: the default engine with one raising rule appended
propagates the exception on a benign context, via the theorem. -/
theorem C4_witness :
    PolicyEngine.evaluate (defaultRules ++ [throwRule]) benignContext = .error "boom" := by
  refine C4_rule_exception_propagates benignContext defaultRules [] throwRule "boom" ?_ rfl
  intro q hq
  have hcases : q = DenyPatternRule.rule "deny-dangerous-commands"
      ["rm -rf *", "rm -rf /", "dd if=*", "mkfs.*", ":()\x7b :|:& \x7d;:",
       "*.production.*", "DROP TABLE*", "DELETE FROM*"] ∨
      q = RiskTierApprovalRule.rule "high-risk-approval" ["high"] ∨
      q = RedactionRule.rule "redact-secrets"
        ["password", "secret", "token", "api_key", "credential"] := by
    simpa [defaultRules] using hq
  rcases hcases with rfl | rfl | rfl
  · exact ⟨none, rfl, fun d hd => by cases hd⟩
  · exact ⟨none, rfl, fun d hd => by cases hd⟩
  · exact ⟨none, rfl, fun d hd => by cases hd⟩

/-- C4 counterexample to the claim as stated: with the default rules plus
a rule that raises `boom`, `PolicyEngine.evaluate` propagates the
exception — its result is the error itself and is not a deny (or any)
decision. -/
theorem C4_counterexample :
    PolicyEngine.evaluate (defaultRules ++ [throwRule]) benignContext = .error "boom" ∧
    ∀ d : PolicyDecision,
      PolicyEngine.evaluate (defaultRules ++ [throwRule]) benignContext ≠ .ok d := by
  have h : PolicyEngine.evaluate (defaultRules ++ [throwRule]) benignContext =
      .error "boom" := rfl
  exact ⟨h, fun d hd => by rw [h] at hd; exact Except.noConfusion hd⟩

/-- C6 (amended): deny globs are matched — anchored and case-insensitively,
`*` matching any run and `?` any one character — against the raw action id,
resource and goal; the normalized form of a target is additionally matched
only when that target contains a character outside letters, digits,
underscore, dot and hyphen (and normalizes to something non-empty): for
such free-text goals, any pattern matching the normalized goal produces a
deny decision carrying the rule id. -/
theorem C6_deny_pattern_normalization :
    ∀ (ruleId : String) (patterns : List String) (ctx : PolicyContext),
      hasNonIdentChar ctx.goal = true →
      normalizeTarget ctx.goal ≠ "" →
      (patterns.any fun p => globMatch p (normalizeTarget ctx.goal)) = true →
      ∃ d, DenyPatternRule.evaluate ruleId patterns ctx = some d ∧
        d.effect = .deny ∧ d.ruleId = some ruleId := by
  intro ruleId patterns ctx hni hne hmatch
  have hgoal : ctx.goal ≠ "" := by
    intro h
    rw [h] at hni
    simp [hasNonIdentChar] at hni
  have hmem : ctx.goal ∈
      ((ctx.actionId.toList ++ ctx.resource.toList) ++ [ctx.goal]).filter (· ≠ "") := by
    simp [List.mem_filter, hgoal]
  have hcand : ∃ cand ∈ candidateTargets ctx.goal,
      (patterns.find? fun p => globMatch p cand).isSome = true := by
    by_cases heq : normalizeTarget ctx.goal = ctx.goal
    · refine ⟨ctx.goal, ?_, ?_⟩
      · simp [candidateTargets, hni]
        split_ifs <;> simp
      · rw [← heq]
        exact find?_isSome_of_any _ patterns hmatch
    · refine ⟨normalizeTarget ctx.goal, ?_, find?_isSome_of_any _ patterns hmatch⟩
      simp [candidateTargets, hni, hne, heq]
  obtain ⟨cand, hcmem, hcfind⟩ := hcand
  have hinner : ((candidateTargets ctx.goal).findSome? fun candidate =>
      ((patterns.find? fun p => globMatch p candidate)).map
        fun p => (ctx.goal, candidate, p)).isSome = true := by
    refine findSome?_isSome _ cand _ hcmem ?_
    rcases hfp : patterns.find? fun p => globMatch p cand with _ | p
    · rw [hfp] at hcfind; simp at hcfind
    · simp
  have houter : ((((ctx.actionId.toList ++ ctx.resource.toList) ++ [ctx.goal]).filter
      (· ≠ "")).findSome? fun target =>
        (candidateTargets target).findSome? fun candidate =>
          ((patterns.find? fun p => globMatch p candidate)).map
            fun p => (target, candidate, p)).isSome = true :=
    findSome?_isSome _ ctx.goal _ hmem hinner
  obtain ⟨tcp, htcp⟩ := Option.isSome_iff_exists.mp houter
  refine ⟨DenyPatternRule.mkDecision ruleId tcp, ?_, rfl, rfl⟩
  simp only [DenyPatternRule.evaluate]
  rw [htcp]
  rfl

/-- C6 witness: the free-text goal `Deploy to production environment`
matched against `*.production.*` denies, via the theorem. -/
theorem C6_witness :
    ∃ d, DenyPatternRule.evaluate "deny-dangerous-commands" ["*.production.*"]
        deployContext = some d ∧ d.effect = .deny ∧
        d.ruleId = some "deny-dangerous-commands" :=
  C6_deny_pattern_normalization "deny-dangerous-commands" ["*.production.*"] deployContext
    (by decide) (by decide) (by decide)

/-- C6 counterexample to the claim as stated: the goal
`deploy_to_production` holds no character outside letters, digits, `_`,
`.`, `-`, so its normalized form `deploy.to.production` — which the
pattern `*.production*` matches — is never tried, and evaluation allows. -/
theorem C6_counterexample :
    globMatch "*.production*" (normalizeTarget "deploy_to_production") = true ∧
    DenyPatternRule.evaluate "r" ["*.production*"] underscoreContext = none := by
  decide

/-- C7 (amended): `end_session` on an unknown id raises
`SessionNotFound`; on a known id it re-ends the session unconditionally —
whatever its state, even already ended or past expiry (no `Expired` is ever
raised): `ended_at` is overwritten with the current time, `total_events` is
recomputed from the tracer, exactly one fresh `session.ended` event is
emitted, and a fresh (not cached) summary is returned.  A second `end` is
therefore observably different from the first: it moves `ended_at`, grows
the trace by another `session.ended` event, and reports a larger event
count. -/
theorem C7_end_session_reends :
    ∀ (w : World) (sid now : Nat),
      (lookupSession w sid = none →
        SessionManager.endSession w sid now = (w, [], .error (.notFound sid))) ∧
      (∀ s, lookupSession w sid = some s →
        ((SessionManager.endSession w sid now).2.1.map (·.eventType) = [.sessionEnded]) ∧
        (SessionManager.endSession w sid now).2.2 =
          .ok { sessionId := sid, endedAt := now, traceSummary := { s.stats with totalEvents := (Tracer.eventsForSession w sid).length } } ∧
        (s.sessionId = sid →
          lookupSession (SessionManager.endSession w sid now).1 sid =
            some { s with state := .ended, endedAt := some now, stats := { s.stats with totalEvents := (Tracer.eventsForSession w sid).length } })) := by
  intro w sid now
  constructor
  · intro h
    simp [SessionManager.endSession, h]
  · intro s hs
    refine ⟨?_, ?_, ?_⟩
    · simp [SessionManager.endSession, hs, Tracer.emit]
    · simp [SessionManager.endSession, hs, Tracer.emit]
    · intro hid
      subst hid
      simp only [SessionManager.endSession, hs]
      simp [Tracer.emit, storeSession, lookupSession, find?_putAssoc]

/-- C7 witness: ending the sample session via the theorem — the summary
counts the one `session.started` event and reports `ended_at = 10`. -/
theorem C7_witness :
    (SessionManager.endSession sampleWorld 1 10).2.2 =
      .ok { sessionId := 1, endedAt := 10, traceSummary := { totalEvents := 1 } } :=
  ((C7_end_session_reends sampleWorld 1 10).2 sampleSession (by decide)).2.1

/-- C7 counterexample to the claim as stated: ending the sample session at
t = 10 and again at t = 20 is observably different from ending it once —
the second call returns a fresh summary with `ended_at = 20` and
`total_events = 2` (not the cached `ended_at = 10`, `total_events = 1`),
overwrites the stored `ended_at` from 10 to 20, and emits a second
`session.ended` event into the trace. -/
theorem C7_counterexample :
    (SessionManager.endSession sampleWorld 1 10).2.2 =
      .ok { sessionId := 1, endedAt := 10, traceSummary := { totalEvents := 1 } } ∧
    (SessionManager.endSession endedOnceWorld 1 20).2.2 =
      .ok { sessionId := 1, endedAt := 20, traceSummary := { totalEvents := 2 } } ∧
    ((SessionManager.endSession endedOnceWorld 1 20).2.1.map (·.eventType) =
      [.sessionEnded]) ∧
    (lookupSession endedOnceWorld 1).map (·.endedAt) = some (some 10) ∧
    (lookupSession endedTwiceWorld 1).map (·.endedAt) = some (some 20) ∧
    (traceLog endedTwiceWorld 10).countP (fun e => e.eventType == .sessionEnded) = 2 := by
  refine ⟨rfl, rfl, rfl, rfl, rfl, rfl⟩

/-- C2: when the policy engine's evaluation denies, `resolve` emits
exactly one `trace.carp.policy.denied` event — severity warn, payload
carrying the decision's rule id, reason and violations — raises
`PolicyDenied` with that reason and rule id, and emits no
`trace.carp.resolve.returned` event for the request (no resolution is
returned).  The only events of the call are the `resolve.requested` event
followed by the denial. -/
theorem C2_policy_denied :
    ∀ (rules : List PolicyRule) (w : World) (req : CARPRequest) (now : Nat)
      (s : Session) (d : PolicyDecision),
      lookupSession w req.session.sessionId = some s →
      s.state = .active →
      now < s.expiresAt →
      PolicyEngine.evaluate rules (policyContextOf req) = .ok d →
      d.effect = .deny →
      (Resolver.resolve (some rules) w req now).2.2 =
        .error (.policyDenied d.reason d.ruleId) ∧
      ((Resolver.resolve (some rules) w req now).2.1.map (·.eventType) =
        [.carpResolveRequested, .carpPolicyDenied]) ∧
      (∀ e ∈ (Resolver.resolve (some rules) w req now).2.1,
        e.eventType = .carpPolicyDenied →
          e.severity = .warn ∧ e.payload = .policyDenied d.ruleId d.reason d.violations) ∧
      ((Resolver.resolve (some rules) w req now).2.1.countP
        (fun e => e.eventType == .carpPolicyDenied) = 1) ∧
      (∀ e ∈ (Resolver.resolve (some rules) w req now).2.1,
        e.eventType ≠ .carpResolveReturned) := by
  intro rules w req now s d hlookup hstate hlt hev hden
  have hget : SessionManager.getSession w req.session.sessionId now = (w, [], .ok s) := by
    simp [SessionManager.getSession, hlookup, hstate, hlt]
  simp only [Resolver.resolve, hget]
  simp [hev, hden, Tracer.emit]

/-- C2 witness: the default rules deny the production-deployment request
from the sample session, via the theorem. -/
theorem C2_witness :
    (Resolver.resolve (some defaultRules) sampleWorld deployRequest 5).2.2 =
      .error (.policyDenied "Denied by pattern: *.production.*"
        (some "deny-dangerous-commands")) :=
  (C2_policy_denied defaultRules sampleWorld deployRequest 5 sampleSession
    deployDenyDecision (by decide) rfl (by decide) (by decide) rfl).1

/-- C1 (amended): after the grant, expiry and approval checks, `execute`
dispatches the raw request parameters straight to the handler — the grant's
schema snapshot is never consulted and no validation step exists — so the
outcome is decided solely by the handler: success yields a completed
response carrying the handler's result, and a handler exception yields a
failed response whose error is the exception's type name and message. -/
theorem C1_execute_skips_validation :
    ∀ (handlers : String → Option ActionHandler) (w : World)
      (req : ExecuteActionRequest) (now after : Nat) (grant : ActionGrant),
      findGrantForAction w req.resolutionId req.actionId = some grant →
      ¬(grant.expiresAt < now) →
      (grant.requiresApproval && !grant.approved) = false →
      (∀ result, executeAction handlers req.actionId req.parameters = .ok result →
        (ActionExecutor.execute handlers w req now after).2.2 =
          .ok { executionId := w.nextId, status := .completed, result := some result, error := none, durationMs := some ((after - now) * 1000) } ∧
        ((ActionExecutor.execute handlers w req now after).2.1.map (·.eventType) =
          [.actionInvoked, .actionCompleted])) ∧
      (∀ e, executeAction handlers req.actionId req.parameters = .error e →
        (ActionExecutor.execute handlers w req now after).2.2 =
          .ok { executionId := w.nextId, status := .failed, result := none, error := some e, durationMs := some ((after - now) * 1000) } ∧
        ((ActionExecutor.execute handlers w req now after).2.1.map (·.eventType) =
          [.actionInvoked, .actionFailed])) := by
  intro handlers w req now after grant hfind hexp happ
  constructor
  · intro result hrun
    constructor
    · simp [ActionExecutor.execute, hfind, hexp, happ, hrun, Tracer.emit]
    · simp [ActionExecutor.execute, hfind, hexp, happ, hrun, Tracer.emit]
  · intro e hrun
    constructor
    · simp [ActionExecutor.execute, hfind, hexp, happ, hrun, Tracer.emit]
    · simp [ActionExecutor.execute, hfind, hexp, happ, hrun, Tracer.emit]

/-- C1 witness: the schema-violating echo request runs the handler and
completes, via the theorem. -/
theorem C1_witness :
    (ActionExecutor.execute builtinHandlers echoGrantWorld bogusEchoRequest 0 0).2.2 =
      .ok { executionId := 20, status := .completed, result := some (.obj [("echo", .str ""), ("action_id", .str "cra.echo")]), error := none, durationMs := some 0 } :=
  ((C1_execute_skips_validation builtinHandlers echoGrantWorld bogusEchoRequest 0 0
      echoGrant rfl (by decide) rfl).1
    (.obj [("echo", .str ""), ("action_id", .str "cra.echo")]) rfl).1

/-- C1 counterexample to the claim as stated: the request parameters
`{"bogus": 1}` violate the grant's schema snapshot under the spec's
validation (required `message` missing; `bogus` unknown with
`additionalProperties` unset), yet `execute` runs the echo handler and
completes — no failure with error_type `validation` occurs, and the emitted
events are `action.invoked` then `action.completed`. -/
theorem C1_counterexample :
    validateParamsSpec echoGrant.schema bogusEchoRequest.parameters = false ∧
    (ActionExecutor.execute builtinHandlers echoGrantWorld bogusEchoRequest 0 0).2.2 =
      .ok { executionId := 20, status := .completed, result := some (.obj [("echo", .str ""), ("action_id", .str "cra.echo")]), error := none, durationMs := some 0 } ∧
    ((ActionExecutor.execute builtinHandlers echoGrantWorld bogusEchoRequest 0 0).2.1.map
      (·.eventType)) = [.actionInvoked, .actionCompleted] := by
  refine ⟨rfl, rfl, rfl⟩

end CRA